import Mathlib

/-!
Attendance system front end (`src/frontend/src/App.js`)

A shallow embedding of the React components of `App.js`.

* Component state (the `useState` cells) is a structure; a handler is a function
  from the state its closure was created in to the new state together with the
  list of effects it performs (requests sent, alerts shown, tracks stopped).
* An `async` handler is split at its `await`: the part before it, and one
  continuation for the resolved and one for the rejected promise.  The
  sequential composition of the parts is the handler run without interleaving.
* The student page is also given as a transition system over user and
  environment events, gated by what the rendered JSX exposes.
-/

namespace Attendance

/-! ## Values -/

/-- An image artifact produced by `canvas.toBlob`. -/
abbrev Blob := Nat

/-- The identity of a `MediaStream` object returned by `getUserMedia`. -/
abbrev MediaStream := Nat

/-- The body of an error response, `error.response.data`. -/
structure ErrorData where
  detail : Option String
deriving DecidableEq, Repr

/-- The response attached to an axios error, `error.response`. -/
structure ErrorResponse where
  data : Option ErrorData
deriving DecidableEq, Repr

/-- The value a rejected axios promise is rejected with. -/
structure AxiosError where
  response : Option ErrorResponse
deriving DecidableEq, Repr

/-- The expression `error.response?.data?.detail`. -/
def AxiosError.detail (error : AxiosError) : Option String :=
  (error.response.bind (fun r => r.data)).bind (fun d => d.detail)

/-- JavaScript truthiness of a string: every string but the empty one. -/
def truthy (s : String) : Bool := !(s == "")

/-- The expression `v || d` for a string-or-undefined `v`. -/
def orDefault (v : Option String) (d : String) : String :=
  match v with
  | some s => if truthy s then s else d
  | none => d

/-! ## StudentAttendance: state -/

/-- The `authData` state cell. -/
structure AuthData where
  name : String
  enrollment_number : String
  email : String
deriving DecidableEq, Repr

/-- The `session_info` object of a session lookup response (fields the page shows). -/
structure SessionInfo where
  subject : String
  faculty : String
  lecture_or_lab : String
  class_name : String
  time_slot : String
  date : String
deriving DecidableEq, Repr

/-- The `useState` cells of `StudentAttendance`. -/
structure StudentState where
  sessionInfo : Option SessionInfo
  authData : AuthData
  isAuthenticated : Bool
  selfie : Option Blob
  loading : Bool
  completed : Bool
  cameraStream : Option MediaStream
deriving DecidableEq, Repr

/-- The initial values given to `useState`. -/
def StudentState.initial : StudentState :=
  { sessionInfo := none
    authData := { name := "", enrollment_number := "", email := "" }
    isAuthenticated := false
    selfie := none
    loading := false
    completed := false
    cameraStream := none }

/-- The JSON body of `POST /api/student/authenticate`. -/
structure AuthRequest where
  session_id : Option String
  email : String
  name : String
  enrollment_number : String
deriving DecidableEq, Repr

/-- The multipart form of `POST /api/student/submit-attendance`. -/
structure SubmitForm where
  session_id : Option String
  student_name : String
  enrollment_number : String
  email : String
  selfie : Option Blob
  filename : String
deriving DecidableEq, Repr

/-- What a handler of the student page does to the outside world. -/
inductive Effect where
  | getSession (sessionId : String)
  | postAuthenticate (body : AuthRequest)
  | postSubmitAttendance (form : SubmitForm)
  | getUserMedia
  | setSrcObject (stream : MediaStream)
  | stopTracks (stream : MediaStream)
  | toBlob
  | alert (message : String)
  | consoleError (label : String)
deriving DecidableEq, Repr

/-- The message of an alert, if the effect is one. -/
def Effect.alertMessage : Effect → Option String
  | .alert m => some m
  | _ => none

/-- The body of an authenticate request, if the effect is one. -/
def Effect.authBody : Effect → Option AuthRequest
  | .postAuthenticate body => some body
  | _ => none

/-- The form of a submit-attendance request, if the effect is one. -/
def Effect.submitForm : Effect → Option SubmitForm
  | .postSubmitAttendance form => some form
  | _ => none

/-! ## StudentAttendance: render gating -/

/-- The four things `StudentAttendance` can render. -/
inductive Screen where
  | loadingSession
  | attendanceMarked
  | identityForm
  | selfieStep
deriving DecidableEq, Repr

/-- Which branch of the render function is taken. -/
def screen (s : StudentState) : Screen :=
  if s.sessionInfo.isNone then .loadingSession
  else if s.completed then .attendanceMarked
  else if !s.isAuthenticated then .identityForm
  else .selfieStep

/-- The `video` element exists, so `videoRef.current` is set. -/
def videoMounted (s : StudentState) : Bool :=
  screen s == .selfieStep && s.cameraStream.isSome

/-- The `canvas` element exists, so `canvasRef.current` is set. -/
def canvasMounted (s : StudentState) : Bool :=
  screen s == .selfieStep

/-! ## StudentAttendance: handlers -/

/-- The handler `handleAuthentication` up to its `await`. -/
def handleAuthentication_begin (sessionId : Option String) (s : StudentState) :
    StudentState × List Effect :=
  ({ s with loading := true },
   [.postAuthenticate
      { session_id := sessionId
        email := s.authData.email
        name := s.authData.name
        enrollment_number := s.authData.enrollment_number }])

/-- The handler `handleAuthentication` after its `await`, for either outcome of the
request. -/
def handleAuthentication_end (r : Except AxiosError Unit) (s : StudentState) :
    StudentState × List Effect :=
  match r with
  | .ok _ =>
    ({ s with isAuthenticated := true, loading := false },
     [.alert "Authentication successful! Please take your selfie."])
  | .error error =>
    ({ s with loading := false },
     [.consoleError "Authentication error:",
      .alert (orDefault error.detail "Authentication failed")])

/-- The handler `handleAuthentication` run to completion with the given outcome of its
request. -/
def handleAuthentication (sessionId : Option String) (r : Except AxiosError Unit)
    (s : StudentState) : StudentState × List Effect :=
  let a := handleAuthentication_begin sessionId s
  let b := handleAuthentication_end r a.1
  (b.1, a.2 ++ b.2)

/-- The function `stopCamera`, as the closure of a render in which `cameraStream` had the value
`captured`. -/
def stopCamera (captured : Option MediaStream) (s : StudentState) :
    StudentState × List Effect :=
  match captured with
  | some stream => ({ s with cameraStream := none }, [.stopTracks stream])
  | none => (s, [])

/-- The handler `startCamera` up to its `await`. -/
def startCamera_begin (s : StudentState) : StudentState × List Effect :=
  (s, [.getUserMedia])

/-- The handler `startCamera` after its `await`: the request was granted with a stream, or
was rejected. -/
def startCamera_end (r : Option MediaStream) (s : StudentState) :
    StudentState × List Effect :=
  match r with
  | some stream =>
    ({ s with cameraStream := some stream },
     if videoMounted s then [.setSrcObject stream] else [])
  | none =>
    (s, [.consoleError "Error accessing camera:",
         .alert "Could not access camera. Please allow camera permission."])

/-- The handler `captureSelfie`: whether the frame is drawn and `toBlob` is called. -/
def captureSelfie (s : StudentState) : StudentState × List Effect :=
  if videoMounted s && canvasMounted s then (s, [.toBlob]) else (s, [])

/-- The callback `captureSelfie` passes to `toBlob`; `captured` is the `cameraStream`
of the render whose `stopCamera` the callback closes over. -/
def captureSelfie_callback (captured : Option MediaStream) (blob : Option Blob)
    (s : StudentState) : StudentState × List Effect :=
  stopCamera captured { s with selfie := blob }

/-- The Retake button: `setSelfie(null); startCamera()`. -/
def retake (s : StudentState) : StudentState × List Effect :=
  startCamera_begin { s with selfie := none }

/-- The handler `submitAttendance` up to its `await` (or to its early return). -/
def submitAttendance_begin (sessionId : Option String) (s : StudentState) :
    StudentState × List Effect :=
  if s.selfie.isNone then
    (s, [.alert "Please take a selfie first"])
  else
    ({ s with loading := true },
     [.postSubmitAttendance
        { session_id := sessionId
          student_name := s.authData.name
          enrollment_number := s.authData.enrollment_number
          email := s.authData.email
          selfie := s.selfie
          filename := "selfie.jpg" }])

/-- The handler `submitAttendance` after its `await`, for either outcome of the request. -/
def submitAttendance_end (r : Except AxiosError Unit) (s : StudentState) :
    StudentState × List Effect :=
  match r with
  | .ok _ =>
    ({ s with completed := true, loading := false },
     [.alert "Attendance marked successfully!"])
  | .error error =>
    ({ s with loading := false },
     [.consoleError "Error submitting attendance:",
      .alert (orDefault error.detail "Failed to submit attendance")])

/-- The handler `submitAttendance` run to completion with the given outcome of its request (the
outcome is not consulted when the handler returns early). -/
def submitAttendance (sessionId : Option String) (r : Except AxiosError Unit)
    (s : StudentState) : StudentState × List Effect :=
  if s.selfie.isNone then
    submitAttendance_begin sessionId s
  else
    let a := submitAttendance_begin sessionId s
    let b := submitAttendance_end r a.1
    (b.1, a.2 ++ b.2)

/-- The function `fetchSessionInfo` up to its `await`. -/
def fetchSessionInfo_begin (sessionId : String) (s : StudentState) :
    StudentState × List Effect :=
  (s, [.getSession sessionId])

/-- The body of a session lookup response that is not null; `session_info` is absent
when the body has no such field. -/
structure SessionData where
  session_info : Option SessionInfo
deriving DecidableEq, Repr

/-- The function `fetchSessionInfo` after its `await`.  A resolved request carries
`response.data`, which is null (`none`) when the body is null or missing; reading
`response.data.session_info` of a null body throws inside the `try`, so the `catch`
branch runs, as it does for a rejected request. -/
def fetchSessionInfo_end (r : Except AxiosError (Option SessionData)) (s : StudentState) :
    StudentState × List Effect :=
  match r with
  | .ok (some data) => ({ s with sessionInfo := data.session_info }, [])
  | .ok none =>
    (s, [.consoleError "Error fetching session info:", .alert "Invalid or expired session"])
  | .error _ =>
    (s, [.consoleError "Error fetching session info:", .alert "Invalid or expired session"])

/-- The `useEffect` body: `if (sessionId) fetchSessionInfo()`. -/
def mountEffect (sessionId : Option String) (s : StudentState) : StudentState × List Effect :=
  match sessionId with
  | some id => if truthy id then fetchSessionInfo_begin id s else (s, [])
  | none => (s, [])

/-! ## The email input: `pattern=".*@charusat\.edu\.in$"` -/

/-- The regular-expression syntax that occurs in the pattern of the email input. -/
inductive Atom where
  | anyStar
  | any
  | char (c : Char)
  | endOfInput
deriving DecidableEq, Repr

/-- ECMAScript line terminators, the characters `.` does not match. -/
def isLineTerminator (c : Char) : Bool :=
  c.toNat == 0x0A || c.toNat == 0x0D || c.toNat == 0x2028 || c.toNat == 0x2029

/-- Characters with a syntactic meaning in a pattern. -/
def isSyntaxChar (c : Char) : Bool :=
  "^$\\.*+?()[]|/".toList.contains c || c == (Char.ofNat 0x7b) || c == (Char.ofNat 0x7d)

/-- Compile a pattern of the subset used here: `.*`, `.`, an escaped syntax character,
`$`, and literal characters.  Anything else does not compile. -/
def parsePattern : List Char → Option (List Atom)
  | [] => some []
  | [c] =>
    if c == '.' then some [Atom.any]
    else if c == '$' then some [Atom.endOfInput]
    else if isSyntaxChar c then none
    else some [Atom.char c]
  | c :: d :: rest =>
    if c == '.' then
      if d == '*' then (parsePattern rest).map (fun as => Atom.anyStar :: as)
      else (parsePattern (d :: rest)).map (fun as => Atom.any :: as)
    else if c == '\\' then
      if isSyntaxChar d then (parsePattern rest).map (fun as => Atom.char d :: as)
      else none
    else if c == '$' then (parsePattern (d :: rest)).map (fun as => Atom.endOfInput :: as)
    else if isSyntaxChar c then none
    else (parsePattern (d :: rest)).map (fun as => Atom.char c :: as)

/-- Match `.*` followed by the continuation `k`, trying every split. -/
def matchStar (k : List Char → Bool) : List Char → Bool
  | [] => k []
  | c :: cs => k (c :: cs) || (!isLineTerminator c && matchStar k cs)

/-- Backtracking match of a compiled pattern at the start of the input. -/
def matchAtoms : List Atom → List Char → Bool
  | [], _ => true
  | .anyStar :: rest, cs => matchStar (matchAtoms rest) cs
  | .any :: rest, c :: cs => !isLineTerminator c && matchAtoms rest cs
  | .any :: _, [] => false
  | .char a :: rest, c :: cs => a == c && matchAtoms rest cs
  | .char _ :: _, [] => false
  | .endOfInput :: rest, cs => cs.isEmpty && matchAtoms rest cs

/-- The `pattern` attribute: the value must match `^(?:pattern)$`; a pattern that does
not compile is ignored. -/
def patternAccepts (pattern value : String) : Bool :=
  match parsePattern pattern.toList with
  | some atoms => matchAtoms (atoms ++ [Atom.endOfInput]) value.toList
  | none => true

/-- The pattern of the email input, as written in the JSX attribute. -/
def emailPattern : String := ".*@charusat\\.edu\\.in$"

/-- The client email eligibility rule. -/
def emailAccepted (email : String) : Bool := patternAccepts emailPattern email

/-- The suffix the hint under the email input names. -/
def emailSuffix : String := "@charusat.edu.in"

/-- Lower-casing of the ASCII letters of a string (the spec notion of the lower-cased
form of an address; addresses a `type="email"` input admits are ASCII). -/
def toLowerCase (s : String) : String := String.mk (s.toList.map Char.toLower)

/-- Browser constraint validation of the identity form: the three inputs are `required`
and the email input has the pattern.  (The syntax check of `type="email"` is not
modelled, so the model admits at least the submissions a browser admits.) -/
def identityFormValid (a : AuthData) : Bool :=
  truthy a.name && truthy a.enrollment_number && truthy a.email && emailAccepted a.email

/-! ## StudentAttendance as a transition system -/

/-- The page together with what is in flight and the history of what happened.
`acquired` counts the streams `getUserMedia` has handed out (the next stream is
numbered `acquired`), `stopped` lists the streams whose tracks have been stopped,
`verified` and `accepted` list the requests the server answered with success,
`resolved` lists the `session_info` objects that successful session lookups delivered. -/
structure World where
  sessionId : Option String
  ui : StudentState
  sessionRequests : Nat
  resolved : List SessionInfo
  authRequests : List AuthRequest
  submitRequests : List SubmitForm
  streamRequests : Nat
  blobCallbacks : List (Option MediaStream)
  acquired : Nat
  stopped : List MediaStream
  verified : List AuthRequest
  accepted : List SubmitForm
  log : List Effect
deriving DecidableEq, Repr

/-- Record one effect of a handler whose closure saw the state `closure`. -/
def World.emit (closure : StudentState) (w : World) (e : Effect) : World :=
  let w1 := { w with log := w.log ++ [e] }
  match e with
  | .getSession _ => { w1 with sessionRequests := w1.sessionRequests + 1 }
  | .postAuthenticate body => { w1 with authRequests := w1.authRequests ++ [body] }
  | .postSubmitAttendance form => { w1 with submitRequests := w1.submitRequests ++ [form] }
  | .getUserMedia => { w1 with streamRequests := w1.streamRequests + 1 }
  | .stopTracks stream =>
    { w1 with stopped := if stream ∈ w1.stopped then w1.stopped else w1.stopped ++ [stream] }
  | .toBlob => { w1 with blobCallbacks := w1.blobCallbacks ++ [closure.cameraStream] }
  | .setSrcObject _ => w1
  | .alert _ => w1
  | .consoleError _ => w1

/-- Run a handler result against the world: its effects in order, then its state. -/
def World.perform (w : World) (r : StudentState × List Effect) : World :=
  { r.2.foldl (World.emit w.ui) w with ui := r.1 }

/-- The page right after mounting with the given `session_id` search parameter. -/
def World.initial (sessionId : Option String) : World :=
  World.perform
    { sessionId := sessionId
      ui := StudentState.initial
      sessionRequests := 0
      resolved := []
      authRequests := []
      submitRequests := []
      streamRequests := 0
      blobCallbacks := []
      acquired := 0
      stopped := []
      verified := []
      accepted := []
      log := [] }
    (mountEffect sessionId StudentState.initial)

/-- What the user and the environment can do to the page. -/
inductive Event where
  | sessionResponse (r : Except AxiosError (Option SessionData))
  | editName (v : String)
  | editEnrollment (v : String)
  | editEmail (v : String)
  | submitIdentityForm
  | authenticateResponse (i : Nat) (r : Except AxiosError Unit)
  | clickStartCamera
  | streamGranted
  | streamDenied
  | clickCapture
  | blobReady (i : Nat) (blob : Option Blob)
  | clickCancel
  | clickSubmit
  | submitResponse (i : Nat) (r : Except AxiosError Unit)
  | clickRetake

/-- An event can happen: the control is rendered and not disabled, or the answered
request or callback is in flight. -/
def enabled (w : World) : Event → Bool
  | .sessionResponse _ => decide (0 < w.sessionRequests)
  | .editName _ => screen w.ui == .identityForm
  | .editEnrollment _ => screen w.ui == .identityForm
  | .editEmail _ => screen w.ui == .identityForm
  | .submitIdentityForm =>
    screen w.ui == .identityForm && !w.ui.loading && identityFormValid w.ui.authData
  | .authenticateResponse i _ => decide (i < w.authRequests.length)
  | .clickStartCamera =>
    screen w.ui == .selfieStep && w.ui.cameraStream.isNone && w.ui.selfie.isNone
  | .streamGranted => decide (0 < w.streamRequests)
  | .streamDenied => decide (0 < w.streamRequests)
  | .clickCapture => screen w.ui == .selfieStep && w.ui.cameraStream.isSome
  | .blobReady i _ => decide (i < w.blobCallbacks.length)
  | .clickCancel => screen w.ui == .selfieStep && w.ui.cameraStream.isSome
  | .clickSubmit => screen w.ui == .selfieStep && w.ui.selfie.isSome && !w.ui.loading
  | .submitResponse i _ => decide (i < w.submitRequests.length)
  | .clickRetake => screen w.ui == .selfieStep && w.ui.selfie.isSome

/-- The effect of an event that can happen. -/
def fire (w : World) : Event → World
  | .sessionResponse r =>
    World.perform
      { w with
        sessionRequests := w.sessionRequests - 1
        resolved :=
          match r with
          | .ok (some data) => w.resolved ++ data.session_info.toList
          | .ok none => w.resolved
          | .error _ => w.resolved }
      (fetchSessionInfo_end r w.ui)
  | .editName v =>
    World.perform w ({ w.ui with authData := { w.ui.authData with name := v } }, [])
  | .editEnrollment v =>
    World.perform w
      ({ w.ui with authData := { w.ui.authData with enrollment_number := v } }, [])
  | .editEmail v =>
    World.perform w ({ w.ui with authData := { w.ui.authData with email := v } }, [])
  | .submitIdentityForm => World.perform w (handleAuthentication_begin w.sessionId w.ui)
  | .authenticateResponse i r =>
    World.perform
      { w with
        authRequests := w.authRequests.eraseIdx i
        verified :=
          match r with
          | .ok _ => w.verified ++ (w.authRequests.get? i).toList
          | .error _ => w.verified }
      (handleAuthentication_end r w.ui)
  | .clickStartCamera => World.perform w (startCamera_begin w.ui)
  | .streamGranted =>
    World.perform { w with streamRequests := w.streamRequests - 1, acquired := w.acquired + 1 }
      (startCamera_end (some w.acquired) w.ui)
  | .streamDenied =>
    World.perform { w with streamRequests := w.streamRequests - 1 }
      (startCamera_end none w.ui)
  | .clickCapture => World.perform w (captureSelfie w.ui)
  | .blobReady i blob =>
    World.perform { w with blobCallbacks := w.blobCallbacks.eraseIdx i }
      (captureSelfie_callback ((w.blobCallbacks.get? i).join) blob w.ui)
  | .clickCancel => World.perform w (stopCamera w.ui.cameraStream w.ui)
  | .clickSubmit => World.perform w (submitAttendance_begin w.sessionId w.ui)
  | .submitResponse i r =>
    World.perform
      { w with
        submitRequests := w.submitRequests.eraseIdx i
        accepted :=
          match r with
          | .ok _ => w.accepted ++ (w.submitRequests.get? i).toList
          | .error _ => w.accepted }
      (submitAttendance_end r w.ui)
  | .clickRetake => World.perform w (retake w.ui)

/-- One step: an event that cannot happen changes nothing. -/
def step (w : World) (e : Event) : World :=
  if enabled w e then fire w e else w

/-- The world after a sequence of events. -/
def run (w : World) (es : List Event) : World := es.foldl step w

/-- Streams acquired minus streams whose tracks have been stopped. -/
def World.held (w : World) : Int := (w.acquired : Int) - (w.stopped.length : Int)

/-- The states of the page reachable from mounting it with some `session_id`. -/
def Reachable (w : World) : Prop := ∃ sessionId es, w = run (World.initial sessionId) es

/-! ## QRScanner: manual entry, and reading the session id back

`handleManualEntry` is in the source.  `navigate`, `useSearchParams` and
`URLSearchParams.get` are library code; they are modelled after the router (a path is cut
at the first `#`, the search string starts at the first `?`) and after the URL standard
(the `application/x-www-form-urlencoded` parser).  The search string is taken as
`navigate` was given it.  A browser router reads it back from `window.location`, where
the URL parser has removed tabs and newlines and percent-encoded some characters; on
strings of unreserved characters the two agree. -/

/-- White space and line terminators, the characters `String.prototype.trim` removes. -/
def isTrimmed (c : Char) : Bool :=
  c.toNat == 0x09 || c.toNat == 0x0A || c.toNat == 0x0B || c.toNat == 0x0C ||
  c.toNat == 0x0D || c.toNat == 0x20 || c.toNat == 0xA0 || c.toNat == 0x1680 ||
  (decide (0x2000 ≤ c.toNat) && decide (c.toNat ≤ 0x200A)) ||
  c.toNat == 0x2028 || c.toNat == 0x2029 || c.toNat == 0x202F || c.toNat == 0x205F ||
  c.toNat == 0x3000 || c.toNat == 0xFEFF

/-- The method `String.prototype.trim`. -/
def trim (s : String) : String :=
  String.mk ((s.toList.dropWhile isTrimmed).reverse.dropWhile isTrimmed).reverse

/-- The handler `handleManualEntry`: the path given to `navigate`, if it is called. -/
def handleManualEntry (manualSessionId : String) : Option String :=
  if truthy (trim manualSessionId) then
    some ("/student/attendance?session_id=" ++ trim manualSessionId)
  else none

/-- The search string of a path: the hash is cut off at the first `#`, the search string
starts at the first `?` of what is left. -/
def searchOf (path : List Char) : List Char :=
  (path.takeWhile (fun c => c != '#')).dropWhile (fun c => c != '?')

/-- Split at every occurrence of a separator. -/
def splitAll (sep : Char) : List Char → List (List Char)
  | [] => [[]]
  | c :: cs =>
    if c == sep then [] :: splitAll sep cs
    else
      match splitAll sep cs with
      | [] => [[c]]
      | s :: ss => (c :: s) :: ss

/-- The value of a hexadecimal digit. -/
def hexDigit (c : Char) : Option Nat :=
  if '0' ≤ c ∧ c ≤ '9' then some (c.toNat - 48)
  else if 'a' ≤ c ∧ c ≤ 'f' then some (c.toNat - 87)
  else if 'A' ≤ c ∧ c ≤ 'F' then some (c.toNat - 55)
  else none

/-- Decode the bytes collected from a run of percent escapes, if there are any. -/
def flushBytes (utf8Decode : List Nat → List Char) (pending : List Nat) : List Char :=
  if pending.isEmpty then [] else utf8Decode pending.reverse

/-- Percent-decode, then decode as UTF-8.  A `%` followed by two hexadecimal digits is a
byte; every other character stands for itself.  The bytes of a run of escapes are
collected in `pending` (last byte first) and handed to the UTF-8 decoder of the platform,
which is a parameter. -/
def percentDecodeFrom (utf8Decode : List Nat → List Char) :
    List Nat → List Char → List Char
  | pending, [] => flushBytes utf8Decode pending
  | pending, [c] => flushBytes utf8Decode pending ++ [c]
  | pending, [c, d] => flushBytes utf8Decode pending ++ [c, d]
  | pending, c :: d :: e :: rest =>
    if c == '%' then
      match hexDigit d, hexDigit e with
      | some hi, some lo => percentDecodeFrom utf8Decode ((16 * hi + lo) :: pending) rest
      | _, _ =>
        flushBytes utf8Decode pending ++ c :: percentDecodeFrom utf8Decode [] (d :: e :: rest)
    else
      flushBytes utf8Decode pending ++ c :: percentDecodeFrom utf8Decode [] (d :: e :: rest)

/-- Decoding of a name or a value: `+` becomes a space, then percent-decoding. -/
def formDecode (utf8Decode : List Nat → List Char) (cs : List Char) : List Char :=
  percentDecodeFrom utf8Decode [] (cs.map (fun c => if c == '+' then ' ' else c))

/-- The name-value pairs of a search string: a leading `?` is dropped, the rest is split
at `&`, empty pieces are skipped, each piece is cut at its first `=`. -/
def searchParams (utf8Decode : List Nat → List Char) (search : List Char) :
    List (List Char × List Char) :=
  let body := match search with
    | c :: cs => if c == '?' then cs else c :: cs
    | [] => []
  ((splitAll '&' body).filter (fun piece => !piece.isEmpty)).map (fun piece =>
    (formDecode utf8Decode (piece.takeWhile (fun c => c != '=')),
     formDecode utf8Decode ((piece.dropWhile (fun c => c != '=')).drop 1)))

/-- The call `searchParams.get(name)` on the page the path leads to: the value of the first pair
with that name, or null. -/
def searchParamsGet (utf8Decode : List Nat → List Char) (path : String) (name : String) :
    Option String :=
  ((searchParams utf8Decode (searchOf path.toList)).find? (fun nv => nv.1 == name.toList)).map
    (fun nv => String.mk nv.2)

/-- The `sessionId` of `StudentAttendance` on the page the path leads to. -/
def sessionIdOf (utf8Decode : List Nat → List Char) (path : String) : Option String :=
  searchParamsGet utf8Decode path "session_id"

/-- Unreserved URL characters: letters, digits, `-`, `.`, `_` and `~`. -/
def isUnreserved (c : Char) : Bool :=
  c.isAlphanum || c == '-' || c == '.' || c == '_' || c == '~'

/-- A stand-in for a UTF-8 decoder that reads every byte as one character. -/
def bytewise (bytes : List Nat) : List Char := bytes.map Char.ofNat

/-! ## TeacherDashboard -/

/-- The `takeAttendanceData` state cell. -/
structure TakeAttendanceData where
  time_slot : String
  lecture_or_lab : String
  subject : String
  faculty : String
  class_name : String
  semester : String
  date : String
deriving DecidableEq, Repr

/-- The `getAttendanceData` state cell, the descriptive key of a query. -/
structure GetAttendanceData where
  class_name : String
  time_slot : String
  faculty : String
  subject : String
  semester : String
  date : String
deriving DecidableEq, Repr

/-- The data of a create-session response. -/
structure QrResult where
  qr_code : String
  session_id : String
deriving DecidableEq, Repr

/-- One record of a get-attendance response. -/
structure AttendanceRecord where
  student_name : String
  enrollment_number : String
  email : String
  timestamp : String
deriving DecidableEq, Repr

/-- The data of a get-attendance response. -/
structure AttendanceResults where
  total_attendance : Nat
  query_info : GetAttendanceData
  records : List AttendanceRecord
deriving DecidableEq, Repr

/-- The `useState` cells of `TeacherDashboard`. -/
structure TeacherState where
  takeAttendanceData : TakeAttendanceData
  getAttendanceData : GetAttendanceData
  qrResult : Option QrResult
  attendanceResults : Option AttendanceResults
  loading : Bool
deriving DecidableEq, Repr

/-- What a handler of the teacher page does to the outside world. -/
inductive TeacherEffect where
  | postCreateSession (body : TakeAttendanceData)
  | postGetAttendance (body : GetAttendanceData)
  | postDownloadAttendance (body : GetAttendanceData)
  | postResetAttendance (body : GetAttendanceData)
  | confirm (message : String)
  | download (filename : String)
  | alert (message : String)
  | consoleError (label : String)
deriving DecidableEq, Repr

/-- The body of a create-session request, if the effect is one. -/
def TeacherEffect.createBody : TeacherEffect → Option TakeAttendanceData
  | .postCreateSession body => some body
  | _ => none

/-- The handler `handleTakeAttendance` up to its `await`. -/
def handleTakeAttendance_begin (s : TeacherState) : TeacherState × List TeacherEffect :=
  ({ s with loading := true }, [.postCreateSession s.takeAttendanceData])

/-- The handler `handleTakeAttendance` after its `await`, for either outcome of the
request. -/
def handleTakeAttendance_end (r : Except AxiosError QrResult) (s : TeacherState) :
    TeacherState × List TeacherEffect :=
  match r with
  | .ok data => ({ s with qrResult := some data, loading := false }, [])
  | .error _ =>
    ({ s with loading := false },
     [.consoleError "Error creating session:", .alert "Failed to create attendance session"])

/-- The handler `handleTakeAttendance` run to completion with the given outcome of its
request. -/
def handleTakeAttendance (r : Except AxiosError QrResult) (s : TeacherState) :
    TeacherState × List TeacherEffect :=
  let a := handleTakeAttendance_begin s
  let b := handleTakeAttendance_end r a.1
  (b.1, a.2 ++ b.2)

/-- Browser constraint validation of the take-attendance form: the `Input`s of subject,
faculty, class_name and date are `required`; the `Select`s of time_slot, lecture_or_lab
and semester carry no constraint. -/
def takeFormValid (d : TakeAttendanceData) : Bool :=
  truthy d.subject && truthy d.faculty && truthy d.class_name && truthy d.date

/-- Submitting the take-attendance form: the submit button is disabled while `loading`,
and the browser calls `onSubmit` only when the form is valid. -/
def submitTakeForm (r : Except AxiosError QrResult) (s : TeacherState) :
    TeacherState × List TeacherEffect :=
  if !s.loading && takeFormValid s.takeAttendanceData then handleTakeAttendance r s
  else (s, [])

/-- Whether one of the seven fields of the take-attendance form is the empty string. -/
def TakeAttendanceData.hasEmptyField (d : TakeAttendanceData) : Bool :=
  d.time_slot == "" || d.lecture_or_lab == "" || d.subject == "" || d.faculty == "" ||
  d.class_name == "" || d.semester == "" || d.date == ""

/-- The body of a reset-attendance response that is not null, with the one field the page
reads; `message` is absent when the body has no such field. -/
structure ResetResult where
  message : Option String
deriving DecidableEq, Repr

/-- The body of a get-attendance request, if the effect is one. -/
def TeacherEffect.queryBody : TeacherEffect → Option GetAttendanceData
  | .postGetAttendance body => some body
  | _ => none

/-- The body of a download-attendance request, if the effect is one. -/
def TeacherEffect.downloadBody : TeacherEffect → Option GetAttendanceData
  | .postDownloadAttendance body => some body
  | _ => none

/-- The body of a reset-attendance request, if the effect is one. -/
def TeacherEffect.resetBody : TeacherEffect → Option GetAttendanceData
  | .postResetAttendance body => some body
  | _ => none

/-- The message of an alert of the teacher page, if the effect is one. -/
def TeacherEffect.alertMessage : TeacherEffect → Option String
  | .alert message => some message
  | _ => none

/-- The file name given to `link.download`, if the effect is a download. -/
def TeacherEffect.fileName : TeacherEffect → Option String
  | .download filename => some filename
  | _ => none

/-- The fields of the query form. -/
inductive QueryField where
  | class_name
  | time_slot
  | faculty
  | subject
  | semester
  | date
deriving DecidableEq, Repr

/-- The object spread of an `onChange` of the query form: one field replaced. -/
def GetAttendanceData.set (d : GetAttendanceData) (field : QueryField) (value : String) :
    GetAttendanceData :=
  match field with
  | .class_name => { d with class_name := value }
  | .time_slot => { d with time_slot := value }
  | .faculty => { d with faculty := value }
  | .subject => { d with subject := value }
  | .semester => { d with semester := value }
  | .date => { d with date := value }

/-- An edit of the query form: `setGetAttendanceData` with one field replaced. -/
def editQueryForm (field : QueryField) (value : String) (s : TeacherState) : TeacherState :=
  { s with getAttendanceData := s.getAttendanceData.set field value }

/-- The handler `handleGetAttendance` up to its `await`. -/
def handleGetAttendance_begin (s : TeacherState) : TeacherState × List TeacherEffect :=
  ({ s with loading := true }, [.postGetAttendance s.getAttendanceData])

/-- The handler `handleGetAttendance` after its `await`, for either outcome of the
request. -/
def handleGetAttendance_end (r : Except AxiosError AttendanceResults) (s : TeacherState) :
    TeacherState × List TeacherEffect :=
  match r with
  | .ok data => ({ s with attendanceResults := some data, loading := false }, [])
  | .error _ =>
    ({ s with loading := false },
     [.consoleError "Error fetching attendance:", .alert "Failed to fetch attendance records"])

/-- The handler `handleGetAttendance` run to completion with the given outcome of its
request. -/
def handleGetAttendance (r : Except AxiosError AttendanceResults) (s : TeacherState) :
    TeacherState × List TeacherEffect :=
  let a := handleGetAttendance_begin s
  let b := handleGetAttendance_end r a.1
  (b.1, a.2 ++ b.2)

/-- The handler `handleDownloadAttendance` up to its `await`. -/
def handleDownloadAttendance_begin (s : TeacherState) : TeacherState × List TeacherEffect :=
  (s, [.postDownloadAttendance s.getAttendanceData])

/-- The handler `handleDownloadAttendance` after its `await`; `key` is the
`getAttendanceData` of the render whose handler was called, which the template literal
of the file name closes over. -/
def handleDownloadAttendance_end (key : GetAttendanceData) (r : Except AxiosError Unit)
    (s : TeacherState) : TeacherState × List TeacherEffect :=
  match r with
  | .ok _ =>
    (s, [.download
          (String.join ["attendance_", key.class_name, "_", key.subject, "_", key.date, ".xlsx"])])
  | .error _ =>
    (s, [.consoleError "Error downloading attendance:", .alert "Failed to download attendance"])

/-- The handler `handleDownloadAttendance` run to completion with the given outcome of its
request. -/
def handleDownloadAttendance (r : Except AxiosError Unit) (s : TeacherState) :
    TeacherState × List TeacherEffect :=
  let a := handleDownloadAttendance_begin s
  let b := handleDownloadAttendance_end s.getAttendanceData r a.1
  (b.1, a.2 ++ b.2)

/-- The handler `handleResetAttendance` up to its `await` (or to its early return);
`confirmed` is the answer `window.confirm` returns. -/
def handleResetAttendance_begin (confirmed : Bool) (s : TeacherState) :
    TeacherState × List TeacherEffect :=
  if !confirmed then
    (s, [.confirm "Are you sure you want to reset all attendance for this session?"])
  else
    (s, [.confirm "Are you sure you want to reset all attendance for this session?",
         .postResetAttendance s.getAttendanceData])

/-- The handler `handleResetAttendance` after its `await`.  A resolved request carries
`response.data`, which is null (`none`) when the body is null or missing.  The handler
reads `response.data.message` for the alert before it clears the roster, inside the `try`:
on a null body that read throws, so the `catch` branch runs and the roster is kept.  An
absent message is alerted as the text of `undefined`. -/
def handleResetAttendance_end (r : Except AxiosError (Option ResetResult)) (s : TeacherState) :
    TeacherState × List TeacherEffect :=
  match r with
  | .ok (some data) =>
    ({ s with attendanceResults := none }, [.alert (data.message.getD "undefined")])
  | .ok none =>
    (s, [.consoleError "Error resetting attendance:", .alert "Failed to reset attendance"])
  | .error _ =>
    (s, [.consoleError "Error resetting attendance:", .alert "Failed to reset attendance"])

/-- The handler `handleResetAttendance` run to completion with the given answer to the
confirmation and the given outcome of its request (not consulted when the handler returns
early). -/
def handleResetAttendance (confirmed : Bool) (r : Except AxiosError (Option ResetResult))
    (s : TeacherState) : TeacherState × List TeacherEffect :=
  if !confirmed then
    handleResetAttendance_begin confirmed s
  else
    let a := handleResetAttendance_begin confirmed s
    let b := handleResetAttendance_end r a.1
    (b.1, a.2 ++ b.2)

/-- Whether a request succeeded. -/
def succeeded {ε α : Type} : Except ε α → Bool
  | .ok _ => true
  | .error _ => false

/-- Whether a request succeeded with a body that is not null. -/
def delivered {ε α : Type} : Except ε (Option α) → Bool
  | .ok (some _) => true
  | .ok none => false
  | .error _ => false

/-! ## StudentAttendance: further notions -/

/-- The handler `startCamera` run to completion with the given outcome of its stream
request. -/
def startCamera (r : Option MediaStream) (s : StudentState) : StudentState × List Effect :=
  let a := startCamera_begin s
  let b := startCamera_end r a.1
  (b.1, a.2 ++ b.2)

/-- The session id of a session lookup request, if the effect is one. -/
def Effect.lookupId : Effect → Option String
  | .getSession sessionId => some sessionId
  | _ => none

/-- The stream whose tracks are stopped, if the effect stops tracks. -/
def Effect.stoppedStream : Effect → Option MediaStream
  | .stopTracks stream => some stream
  | _ => none

/-- The identity fields of an authenticate request. -/
def AuthRequest.identity (a : AuthRequest) : AuthData :=
  { name := a.name, enrollment_number := a.enrollment_number, email := a.email }

/-- The identity fields of a submit-attendance request. -/
def SubmitForm.identity (f : SubmitForm) : AuthData :=
  { name := f.student_name, enrollment_number := f.enrollment_number, email := f.email }

/-- What holds of every reachable world about the session lookup: at most one lookup is
in flight and none once `sessionInfo` is set; while `sessionInfo` is null nobody is
authenticated and no authenticate or submit request is in flight or was ever sent; every
lookup sent carries the `session_id` of the URL; a `sessionInfo` that is set was
delivered by a successful lookup; and every delivery or lookup in flight belongs to a
lookup that was sent. -/
structure SessionInv (w : World) : Prop where
  single : w.sessionRequests ≤ 1
  quiet : w.ui.sessionInfo ≠ none → w.sessionRequests = 0
  locked : w.ui.sessionInfo = none →
    w.ui.isAuthenticated = false ∧ w.authRequests = [] ∧
    w.log.filterMap Effect.authBody = [] ∧ w.log.filterMap Effect.submitForm = []
  looked : ∀ id ∈ w.log.filterMap Effect.lookupId, w.sessionId = some id
  known : ∀ info, w.ui.sessionInfo = some info → info ∈ w.resolved
  answered : w.resolved.length + w.sessionRequests ≤ (w.log.filterMap Effect.lookupId).length

/-- What holds of every reachable world: at most one authenticate or submit request
is in flight and exactly then `loading` is set; a submit request is in flight only
for an authenticated, not yet completed attempt and carries a selfie; a request was
accepted exactly when `completed` is set. -/
structure Inv (w : World) : Prop where
  inflight : w.authRequests.length + w.submitRequests.length = if w.ui.loading then 1 else 0
  pending : w.submitRequests ≠ [] → w.ui.isAuthenticated = true ∧ w.ui.completed = false
  sent : ∀ f ∈ w.submitRequests, f.selfie.isSome = true
  kept : ∀ f ∈ w.accepted, f.selfie.isSome = true
  fresh : w.ui.completed = false → w.accepted = []
  done : w.ui.completed = true →
    w.ui.isAuthenticated = true ∧ w.accepted.length = 1 ∧ w.submitRequests = []

/-! ## Sample inputs -/

/-- The session of the scenario in the specification. -/
def sampleSession : SessionInfo :=
  { subject := "OS", faculty := "Dr. Rao", lecture_or_lab := "Lecture", class_name := "CE-A",
    time_slot := "9:00-10:00", date := "2024-03-01" }

/-- The answer to the session lookup of the scenario. -/
def sessionFound : Except AxiosError (Option SessionData) :=
  .ok (some { session_info := some sampleSession })

/-- An answer to a session lookup with status 404. -/
def sessionMissing : Except AxiosError (Option SessionData) :=
  .error { response := some { data := some { detail := some "Session not found" } } }

/-- The session resolves and the student of the scenario authenticates. -/
def toSelfieStep : List Event :=
  [.sessionResponse sessionFound, .editName "Asha", .editEnrollment "21CE001",
   .editEmail "asha@charusat.edu.in", .submitIdentityForm, .authenticateResponse 0 (.ok ())]

/-- The session lookup is answered with 404; the student then tries the steps of the
scenario all the same. -/
def lookupFails : List Event :=
  [.sessionResponse sessionMissing, .editName "Asha", .editEnrollment "21CE001",
   .editEmail "asha@charusat.edu.in", .submitIdentityForm, .authenticateResponse 0 (.ok ()),
   .clickStartCamera, .clickSubmit]

/-- Start Camera is clicked twice before the browser answers; both requests are granted. -/
def doubleStart : List Event :=
  toSelfieStep ++ [.clickStartCamera, .clickStartCamera, .streamGranted, .streamGranted]

/-- The student of the scenario has captured a selfie and not yet submitted. -/
def captureDone : List Event :=
  toSelfieStep ++ [.clickStartCamera, .streamGranted, .clickCapture, .blobReady 0 (some 7)]

/-- A complete check-in: start the camera, capture, submit, success. -/
def checkIn : List Event :=
  toSelfieStep ++
    [.clickStartCamera, .streamGranted, .clickCapture, .blobReady 0 (some 7), .clickSubmit,
     .submitResponse 0 (.ok ())]

/-- Submit is clicked and, while the request is in flight, Retake is clicked; then the
request succeeds. -/
def retakeDuringSubmit : List Event :=
  toSelfieStep ++
    [.clickStartCamera, .streamGranted, .clickCapture, .blobReady 0 (some 7), .clickSubmit,
     .clickRetake, .submitResponse 0 (.ok ())]

/-- An authenticated attempt holding a captured selfie. -/
def capturedState : StudentState :=
  { sessionInfo := some sampleSession
    authData := { name := "Asha", enrollment_number := "21CE001", email := "asha@charusat.edu.in" }
    isAuthenticated := true
    selfie := some 7
    loading := false
    completed := false
    cameraStream := none }

/-- An attempt on the identity form with the fields of the scenario filled in. -/
def identityState : StudentState :=
  { capturedState with isAuthenticated := false, selfie := none }

/-- An error response whose body is `{"detail": ""}`. -/
def emptyDetailError : AxiosError :=
  { response := some { data := some { detail := some "" } } }

/-- An error response whose body is `{"detail": "Attendance already marked"}`. -/
def duplicateError : AxiosError :=
  { response := some { data := some { detail := some "Attendance already marked" } } }

/-- The teacher page with subject, faculty, class and date typed in and no time slot, type
or semester selected. -/
def selectsLeftEmpty : TeacherState :=
  { takeAttendanceData :=
      { time_slot := "", lecture_or_lab := "", subject := "OS", faculty := "Dr. Rao",
        class_name := "CE-A", semester := "", date := "2024-03-01" }
    getAttendanceData :=
      { class_name := "", time_slot := "", faculty := "", subject := "", semester := "",
        date := "2024-03-01" }
    qrResult := none
    attendanceResults := none
    loading := false }

/-- A create-session response. -/
def sampleQr : QrResult := { qr_code := "data:image/png;base64,AAAA", session_id := "s1" }

/-- An authenticated attempt with a live camera stream and no selfie yet. -/
def liveState : StudentState :=
  { capturedState with selfie := none, cameraStream := some 0 }

/-- The student of the scenario clicks Verify and, while the authenticate request is in
flight, replaces the enrollment number and the email; the request succeeds; then a
complete check-in follows. -/
def editDuringAuthentication : List Event :=
  [.sessionResponse sessionFound, .editName "Asha", .editEnrollment "21CE001",
   .editEmail "asha@charusat.edu.in", .submitIdentityForm, .editEnrollment "21CE999",
   .editEmail "mallory@gmail.com", .authenticateResponse 0 (.ok ()), .clickStartCamera,
   .streamGranted, .clickCapture, .blobReady 0 (some 7), .clickSubmit,
   .submitResponse 0 (.ok ())]

/-- The descriptive key of the scenario. -/
def sampleKey : GetAttendanceData :=
  { class_name := "CE-A", time_slot := "9:00-10:00", faculty := "Dr. Rao", subject := "OS",
    semester := "5", date := "2024-03-01" }

/-- The teacher page with the key of the scenario in the query form. -/
def queryState : TeacherState :=
  { selectsLeftEmpty with getAttendanceData := sampleKey }

/-- A get-attendance response that echoes the key of the scenario, with one record. -/
def sampleResults : AttendanceResults :=
  { total_attendance := 1
    query_info := sampleKey
    records :=
      [{ student_name := "Asha", enrollment_number := "21CE001",
         email := "asha@charusat.edu.in", timestamp := "2024-03-01T09:05:00" }] }

/-- A reset-attendance response with a confirmation message. -/
def resetDone : Except AxiosError (Option ResetResult) :=
  .ok (some { message := some "Attendance reset" })

/-- A reset-attendance response with status 200 and a null body. -/
def resetNullBody : Except AxiosError (Option ResetResult) := .ok none

/-- The teacher page showing the results of the scenario. -/
def resultsShown : TeacherState :=
  (handleGetAttendance (.ok sampleResults) queryState).1

/-! ## Theorems -/

/-! ### The in-flight discipline of the student page -/

/-! Projections of `World.perform`. -/

theorem foldl_emit_authRequests (c : StudentState) (es : List Effect) (w : World) :
    (es.foldl (World.emit c) w).authRequests =
      w.authRequests ++ es.filterMap Effect.authBody := by
  induction es generalizing w with
  | nil => simp
  | cons e es ih => rw [List.foldl_cons, ih]; cases e <;> simp [World.emit, Effect.authBody]

theorem foldl_emit_submitRequests (c : StudentState) (es : List Effect) (w : World) :
    (es.foldl (World.emit c) w).submitRequests =
      w.submitRequests ++ es.filterMap Effect.submitForm := by
  induction es generalizing w with
  | nil => simp
  | cons e es ih => rw [List.foldl_cons, ih]; cases e <;> simp [World.emit, Effect.submitForm]

theorem foldl_emit_accepted (c : StudentState) (es : List Effect) (w : World) :
    (es.foldl (World.emit c) w).accepted = w.accepted := by
  induction es generalizing w with
  | nil => simp
  | cons e es ih => rw [List.foldl_cons, ih]; cases e <;> simp [World.emit]

theorem foldl_emit_log (c : StudentState) (es : List Effect) (w : World) :
    (es.foldl (World.emit c) w).log = w.log ++ es := by
  induction es generalizing w with
  | nil => simp
  | cons e es ih => rw [List.foldl_cons, ih]; cases e <;> simp [World.emit]

theorem perform_ui (w : World) (r : StudentState × List Effect) :
    (World.perform w r).ui = r.1 := rfl

theorem perform_authRequests (w : World) (r : StudentState × List Effect) :
    (World.perform w r).authRequests = w.authRequests ++ r.2.filterMap Effect.authBody :=
  foldl_emit_authRequests w.ui r.2 w

theorem perform_submitRequests (w : World) (r : StudentState × List Effect) :
    (World.perform w r).submitRequests =
      w.submitRequests ++ r.2.filterMap Effect.submitForm :=
  foldl_emit_submitRequests w.ui r.2 w

theorem perform_accepted (w : World) (r : StudentState × List Effect) :
    (World.perform w r).accepted = w.accepted :=
  foldl_emit_accepted w.ui r.2 w

theorem perform_log (w : World) (r : StudentState × List Effect) :
    (World.perform w r).log = w.log ++ r.2 :=
  foldl_emit_log w.ui r.2 w

/-- A handler result that sends no authenticate or submit request and keeps the
three flags preserves the in-flight discipline. -/
theorem inv_perform_frame (w : World) (r : StudentState × List Effect) (h : Inv w)
    (ha : r.2.filterMap Effect.authBody = []) (hs : r.2.filterMap Effect.submitForm = [])
    (hl : r.1.loading = w.ui.loading) (hc : r.1.completed = w.ui.completed)
    (hi : r.1.isAuthenticated = w.ui.isAuthenticated) : Inv (World.perform w r) := by
  obtain ⟨h1, h2, h3, h4, h5, h6⟩ := h
  constructor <;>
    simp only [perform_ui, perform_authRequests, perform_submitRequests, perform_accepted,
      ha, hs, hl, hc, hi, List.append_nil] <;> assumption

theorem inv_congr (w v : World) (h : Inv w) (hu : v.ui = w.ui)
    (ha : v.authRequests = w.authRequests) (hs : v.submitRequests = w.submitRequests)
    (hk : v.accepted = w.accepted) : Inv v := by
  obtain ⟨h1, h2, h3, h4, h5, h6⟩ := h
  constructor <;> simp only [hu, ha, hs, hk] <;> assumption

theorem mountEffect_state (sessionId : Option String) (s : StudentState) :
    (mountEffect sessionId s).1 = s := by
  cases sessionId with
  | none => rfl
  | some id => simp only [mountEffect, fetchSessionInfo_begin]; split <;> rfl

theorem mountEffect_no_auth (sessionId : Option String) (s : StudentState) :
    (mountEffect sessionId s).2.filterMap Effect.authBody = [] := by
  cases sessionId with
  | none => rfl
  | some id => simp only [mountEffect, fetchSessionInfo_begin]; split <;> rfl

theorem mountEffect_no_submit (sessionId : Option String) (s : StudentState) :
    (mountEffect sessionId s).2.filterMap Effect.submitForm = [] := by
  cases sessionId with
  | none => rfl
  | some id => simp only [mountEffect, fetchSessionInfo_begin]; split <;> rfl

theorem inv_initial (sessionId : Option String) : Inv (World.initial sessionId) := by
  unfold World.initial
  apply inv_perform_frame
  · constructor <;> simp [StudentState.initial]
  · exact mountEffect_no_auth _ _
  · exact mountEffect_no_submit _ _
  · rw [mountEffect_state]
  · rw [mountEffect_state]
  · rw [mountEffect_state]

theorem screen_identityForm (s : StudentState) (h : screen s = .identityForm) :
    s.sessionInfo ≠ none ∧ s.completed = false ∧ s.isAuthenticated = false := by
  unfold screen at h
  split at h
  · cases h
  · split at h
    · cases h
    · split at h
      · simp_all
      · cases h

theorem screen_selfieStep (s : StudentState) (h : screen s = .selfieStep) :
    s.sessionInfo ≠ none ∧ s.completed = false ∧ s.isAuthenticated = true := by
  unfold screen at h
  split at h
  · cases h
  · split at h
    · cases h
    · split at h
      · cases h
      · simp_all

theorem submitAttendance_begin_some (sessionId : Option String) (s : StudentState)
    (h : s.selfie.isSome = true) :
    submitAttendance_begin sessionId s =
      ({ s with loading := true },
       [.postSubmitAttendance
          { session_id := sessionId
            student_name := s.authData.name
            enrollment_number := s.authData.enrollment_number
            email := s.authData.email
            selfie := s.selfie
            filename := "selfie.jpg" }]) := by
  unfold submitAttendance_begin
  cases hs : s.selfie with
  | none => simp [hs] at h
  | some b => simp

theorem eraseIdx_single {α : Type} (l : List α) (i : Nat) (h : l.length = 1) (hi : i < l.length) :
    l.eraseIdx i = [] ∧ ∃ x, l = [x] ∧ l.get? i = some x := by
  match l, h with
  | [x], _ =>
    have : i = 0 := by simp at hi; exact hi
    subst this
    exact ⟨rfl, x, rfl, rfl⟩

/-- The discipline in a world with nothing in flight. -/
theorem inv_idle (v : World) (hl : v.ui.loading = false) (ha : v.authRequests = [])
    (hs : v.submitRequests = []) (hk : ∀ f ∈ v.accepted, f.selfie.isSome = true)
    (h5 : v.ui.completed = false → v.accepted = [])
    (h6 : v.ui.completed = true → v.ui.isAuthenticated = true ∧ v.accepted.length = 1) :
    Inv v := by
  constructor
  · simp [hl, ha, hs]
  · intro h; exact absurd hs h
  · intro f hf; rw [hs] at hf; cases hf
  · exact hk
  · exact h5
  · intro h; exact ⟨(h6 h).1, (h6 h).2, hs⟩

theorem lengths_zero (a b : Nat) (l : Bool) (h : a + b = if l = true then 1 else 0)
    (hl : l = false) : a = 0 ∧ b = 0 := by
  subst hl; simp at h; exact h

theorem inv_step (w : World) (e : Event) (h : Inv w) : Inv (step w e) := by
  unfold step
  split
  next hen =>
    cases e with
    | sessionResponse r =>
      refine inv_perform_frame _ _ (inv_congr w _ h rfl rfl rfl rfl) ?_ ?_ ?_ ?_ ?_ <;>
        rcases r with e | _ | data <;> rfl
    | editName v => exact inv_perform_frame _ _ h rfl rfl rfl rfl rfl
    | editEnrollment v => exact inv_perform_frame _ _ h rfl rfl rfl rfl rfl
    | editEmail v => exact inv_perform_frame _ _ h rfl rfl rfl rfl rfl
    | submitIdentityForm =>
      simp only [enabled, Bool.and_eq_true, beq_iff_eq, Bool.not_eq_true'] at hen
      obtain ⟨⟨hs, hl⟩, _⟩ := hen
      obtain ⟨_, hc, hi⟩ := screen_identityForm _ hs
      obtain ⟨h1, h2, h3, h4, h5, h6⟩ := h
      obtain ⟨ha, hb⟩ := lengths_zero _ _ _ h1 hl
      rw [List.length_eq_zero] at ha hb
      constructor <;>
        simp_all [fire, perform_ui, perform_authRequests, perform_submitRequests,
          perform_accepted, handleAuthentication_begin, Effect.authBody, Effect.submitForm]
    | authenticateResponse i r =>
      simp only [enabled, decide_eq_true_eq] at hen
      obtain ⟨h1, h2, h3, h4, h5, h6⟩ := h
      have hlen : w.authRequests.length = 1 ∧ w.submitRequests.length = 0 := by
        split at h1 <;> omega
      obtain ⟨ha, hb⟩ := hlen
      rw [List.length_eq_zero] at hb
      obtain ⟨he, _⟩ := eraseIdx_single _ i ha hen
      have hdone1 := fun h => (h6 h).1
      have hdone2 := fun h => (h6 h).2.1
      cases r with
      | ok u =>
        apply inv_idle <;>
          simp only [fire, perform_ui, perform_authRequests, perform_submitRequests,
            perform_accepted, handleAuthentication_end, he, hb] <;>
          first | rfl | assumption | (intro h; exact ⟨trivial, hdone2 h⟩)
      | error err =>
        apply inv_idle <;>
          simp only [fire, perform_ui, perform_authRequests, perform_submitRequests,
            perform_accepted, handleAuthentication_end, he, hb] <;>
          first | rfl | assumption | (intro h; exact ⟨hdone1 h, hdone2 h⟩)
    | clickStartCamera => exact inv_perform_frame _ _ h rfl rfl rfl rfl rfl
    | streamGranted =>
      refine inv_perform_frame _ _ (inv_congr w _ h rfl rfl rfl rfl) ?_ ?_ rfl rfl rfl <;>
        (simp only [startCamera_end]; split <;> rfl)
    | streamDenied =>
      exact inv_perform_frame _ _ (inv_congr w _ h rfl rfl rfl rfl) rfl rfl rfl rfl rfl
    | clickCapture =>
      refine inv_perform_frame _ _ h ?_ ?_ ?_ ?_ ?_ <;>
        (simp only [captureSelfie]; split <;> rfl)
    | blobReady i blob =>
      refine inv_perform_frame _ _ (inv_congr w _ h rfl rfl rfl rfl) ?_ ?_ ?_ ?_ ?_ <;>
        (simp only [captureSelfie_callback, stopCamera]; split <;> rfl)
    | clickCancel =>
      refine inv_perform_frame _ _ h ?_ ?_ ?_ ?_ ?_ <;>
        (simp only [stopCamera]; split <;> rfl)
    | clickSubmit =>
      simp only [enabled, Bool.and_eq_true, beq_iff_eq, Bool.not_eq_true'] at hen
      obtain ⟨⟨hs, hf⟩, hl⟩ := hen
      obtain ⟨_, hc, hi⟩ := screen_selfieStep _ hs
      obtain ⟨h1, h2, h3, h4, h5, h6⟩ := h
      obtain ⟨ha, hb⟩ := lengths_zero _ _ _ h1 hl
      rw [List.length_eq_zero] at ha hb
      constructor <;>
        simp_all [fire, perform_ui, perform_authRequests, perform_submitRequests,
          perform_accepted, submitAttendance_begin_some, Effect.authBody, Effect.submitForm]
    | submitResponse i r =>
      simp only [enabled, decide_eq_true_eq] at hen
      obtain ⟨h1, h2, h3, h4, h5, h6⟩ := h
      have hlen : w.submitRequests.length = 1 ∧ w.authRequests.length = 0 := by
        split at h1 <;> omega
      obtain ⟨hb, ha⟩ := hlen
      rw [List.length_eq_zero] at ha
      obtain ⟨he, x, hx, hg⟩ := eraseIdx_single _ i hb hen
      have hne : w.submitRequests ≠ [] := by rw [hx]; simp
      obtain ⟨hi, hc⟩ := h2 hne
      have hfresh := h5 hc
      have hxs : x.selfie.isSome = true := h3 x (by rw [hx]; simp)
      cases r with
      | ok u =>
        apply inv_idle <;>
          simp only [fire, perform_ui, perform_authRequests, perform_submitRequests,
            perform_accepted, submitAttendance_end, he, ha, hg, hfresh, Option.toList,
            List.nil_append] <;>
          first
          | rfl
          | (intro f hf; rw [List.mem_singleton] at hf; rw [hf]; exact hxs)
          | (intro _; exact ⟨hi, rfl⟩)
          | (intro h; cases h)
      | error err =>
        apply inv_idle <;>
          simp only [fire, perform_ui, perform_authRequests, perform_submitRequests,
            perform_accepted, submitAttendance_end, he, ha, hg, hfresh] <;>
          first
          | rfl
          | (intro f hf; cases hf)
          | (intro _; trivial)
          | (intro h; rw [hc] at h; cases h)
    | clickRetake => exact inv_perform_frame _ _ h rfl rfl rfl rfl rfl
  next => exact h

theorem inv_run (w : World) (es : List Event) (h : Inv w) : Inv (run w es) := by
  induction es generalizing w with
  | nil => exact h
  | cons e es ih => exact ih (step w e) (inv_step w e h)

theorem inv_reachable (w : World) (h : Reachable w) : Inv w := by
  obtain ⟨sessionId, es, rfl⟩ := h
  exact inv_run _ es (inv_initial sessionId)

/-- Once `completed` is set, no event changes it, accepts a request or sends a
submit-attendance request. -/
theorem step_after_completed (w : World) (e : Event) (h : Inv w)
    (hc : w.ui.completed = true) :
    (step w e).ui.completed = true ∧ (step w e).accepted = w.accepted ∧
      (step w e).log.filterMap Effect.submitForm = w.log.filterMap Effect.submitForm := by
  have frame : ∀ (v : World) (r : StudentState × List Effect), v.ui = w.ui →
      v.accepted = w.accepted → v.log = w.log → r.1.completed = w.ui.completed →
      r.2.filterMap Effect.submitForm = [] →
      (World.perform v r).ui.completed = true ∧ (World.perform v r).accepted = w.accepted ∧
        (World.perform v r).log.filterMap Effect.submitForm =
          w.log.filterMap Effect.submitForm := by
    intro v r _ hk hlog hcr hs
    rw [perform_ui, perform_accepted, perform_log, List.filterMap_append, hs, hk, hlog, hcr, hc]
    simp
  unfold step
  split
  next hen =>
    cases e with
    | sessionResponse r =>
      apply frame <;> first | rfl | (rcases r with e | _ | data <;> rfl)
    | editName v => apply frame <;> rfl
    | editEnrollment v => apply frame <;> rfl
    | editEmail v => apply frame <;> rfl
    | submitIdentityForm => apply frame <;> rfl
    | authenticateResponse i r => apply frame <;> first | rfl | (cases r <;> rfl)
    | clickStartCamera => apply frame <;> rfl
    | streamGranted =>
      apply frame <;> first | rfl | (simp only [startCamera_end]; split <;> rfl)
    | streamDenied => apply frame <;> rfl
    | clickCapture =>
      apply frame <;> first | rfl | (simp only [captureSelfie]; split <;> rfl)
    | blobReady i blob =>
      apply frame <;>
        first | rfl | (simp only [captureSelfie_callback, stopCamera]; split <;> rfl)
    | clickCancel =>
      apply frame <;> first | rfl | (simp only [stopCamera]; split <;> rfl)
    | clickSubmit =>
      simp only [enabled, Bool.and_eq_true, beq_iff_eq] at hen
      have := (screen_selfieStep _ hen.1.1).2.1
      rw [hc] at this; cases this
    | submitResponse i r =>
      simp only [enabled, decide_eq_true_eq, (h.done hc).2.2, List.length_nil] at hen
      omega
    | clickRetake => apply frame <;> rfl
  next => exact ⟨hc, rfl, rfl⟩

theorem run_after_completed (w : World) (es : List Event) (h : Inv w)
    (hc : w.ui.completed = true) :
    (run w es).ui.completed = true ∧ (run w es).accepted = w.accepted ∧
      (run w es).log.filterMap Effect.submitForm = w.log.filterMap Effect.submitForm := by
  induction es generalizing w with
  | nil => exact ⟨hc, rfl, rfl⟩
  | cons e es ih =>
    obtain ⟨h1, h2, h3⟩ := step_after_completed w e h hc
    obtain ⟨k1, k2, k3⟩ := ih (step w e) (inv_step w e h) h1
    exact ⟨k1, k2.trans h2, k3.trans h3⟩

/-! ### The claims -/

/-- C1 (fails on the code): clicking Start Camera twice before the browser answers and
having both stream requests granted leaves two streams acquired and none stopped; the
page then knows only the second stream, so after Cancel one acquired stream is still
not stopped and no stream is recorded as held. -/
theorem double_start_holds_two_streams :
    (run (World.initial (some "s1")) doubleStart).held = 2 ∧
    (run (World.initial (some "s1")) doubleStart).ui.cameraStream = some 1 ∧
    (run (World.initial (some "s1")) (doubleStart ++ [.clickCancel])).held = 1 ∧
    (run (World.initial (some "s1")) (doubleStart ++ [.clickCancel])).ui.cameraStream = none := by
  decide

/-- C2 as stated fails: when Retake is clicked while the submit request is in flight and
the request then succeeds, the page is completed with a null selfie. -/
theorem completed_with_selfie_cleared :
    Reachable (run (World.initial (some "s1")) retakeDuringSubmit) ∧
    (run (World.initial (some "s1")) retakeDuringSubmit).ui.completed = true ∧
    (run (World.initial (some "s1")) retakeDuringSubmit).ui.selfie = none :=
  ⟨⟨_, _, rfl⟩, by decide, by decide⟩

/-- C2 (amended): in every reachable state of the student page, completed = true implies
isAuthenticated = true and that exactly one submit-attendance request was accepted, which
carried a non-null selfie. -/
theorem completed_implies_verified_and_artifact_sent (w : World) (hr : Reachable w)
    (hc : w.ui.completed = true) :
    w.ui.isAuthenticated = true ∧ ∃ f, w.accepted = [f] ∧ f.selfie.isSome = true := by
  have h := inv_reachable w hr
  obtain ⟨hi, hl, _⟩ := h.done hc
  refine ⟨hi, ?_⟩
  match hw : w.accepted, hl with
  | [f], _ => exact ⟨f, rfl, h.kept f (by rw [hw]; simp)⟩

/-- An instance of C2 (amended): the state after a complete check-in. -/
theorem completed_implies_verified_and_artifact_sent_witness :
    Reachable (run (World.initial (some "s1")) checkIn) ∧
    (run (World.initial (some "s1")) checkIn).ui.completed = true ∧
    ((run (World.initial (some "s1")) checkIn).ui.isAuthenticated = true ∧
      ∃ f, (run (World.initial (some "s1")) checkIn).accepted = [f] ∧ f.selfie.isSome = true) :=
  ⟨⟨_, _, rfl⟩, by decide,
    completed_implies_verified_and_artifact_sent _ ⟨_, _, rfl⟩ (by decide)⟩

/-- C3 as stated fails: submitAttendance does not look at completed.  Invoked again on the
state a successful invocation left (completed = true, selfie still held), it sends a second
submit-attendance request. -/
theorem second_submitAttendance_sends_again :
    (submitAttendance (some "s1") (.ok ()) capturedState).1.completed = true ∧
    ((submitAttendance (some "s1") (.ok ())
        (submitAttendance (some "s1") (.ok ()) capturedState).1).2.filterMap
          Effect.submitForm).length = 1 := by
  decide

/-- C3 (amended): on the page, once completed = true exactly one submit-attendance request
has been accepted and none is in flight, and whatever events follow, completed stays true,
no further submit-attendance request is sent and none is accepted. -/
theorem no_submit_after_completed (w : World) (es : List Event) (hr : Reachable w)
    (hc : w.ui.completed = true) :
    w.accepted.length = 1 ∧ w.submitRequests = [] ∧
    (run w es).ui.completed = true ∧ (run w es).accepted = w.accepted ∧
    (run w es).log.filterMap Effect.submitForm = w.log.filterMap Effect.submitForm := by
  have h := inv_reachable w hr
  exact ⟨(h.done hc).2.1, (h.done hc).2.2, run_after_completed w es h hc⟩

/-- An instance of C3 (amended): after a complete check-in, Submit and Retake are tried. -/
theorem no_submit_after_completed_witness :
    Reachable (run (World.initial (some "s1")) checkIn) ∧
    (run (World.initial (some "s1")) checkIn).ui.completed = true ∧
    ((run (World.initial (some "s1")) checkIn).accepted.length = 1 ∧
      (run (World.initial (some "s1")) checkIn).submitRequests = [] ∧
      (run (run (World.initial (some "s1")) checkIn) [.clickSubmit, .clickRetake]).ui.completed
        = true ∧
      (run (run (World.initial (some "s1")) checkIn) [.clickSubmit, .clickRetake]).accepted =
        (run (World.initial (some "s1")) checkIn).accepted ∧
      (run (run (World.initial (some "s1")) checkIn) [.clickSubmit, .clickRetake]).log.filterMap
          Effect.submitForm =
        (run (World.initial (some "s1")) checkIn).log.filterMap Effect.submitForm) :=
  ⟨⟨_, _, rfl⟩, by decide,
    no_submit_after_completed _ [.clickSubmit, .clickRetake] ⟨_, _, rfl⟩ (by decide)⟩

/-- C4 as stated fails: a failed submit-attendance request whose response carries the
detail "" (the empty string) surfaces 'Failed to submit attendance', not the detail. -/
theorem submit_empty_detail_shows_fallback :
    emptyDetailError.detail = some "" ∧
    (submitAttendance (some "s1") (.error emptyDetailError) capturedState).2.filterMap
      Effect.alertMessage = ["Failed to submit attendance"] ∧
    (submitAttendance (some "s1") (.error emptyDetailError) capturedState).2.filterMap
      Effect.alertMessage ≠ [""] := by
  decide

/-- C4 (amended): for an attempt with a capture artifact whose submit-attendance request
fails, submitAttendance sends that one request and leaves completed (false when it was
false), selfie and authData unchanged; the one message shown is the detail of the response
when it carries a non-empty one, and 'Failed to submit attendance' when it carries none or
an empty one. -/
theorem submitAttendance_failure (sessionId : Option String) (error : AxiosError)
    (s : StudentState) (h : s.selfie.isSome = true) :
    (submitAttendance sessionId (.error error) s).1.completed = s.completed ∧
    (submitAttendance sessionId (.error error) s).1.selfie = s.selfie ∧
    (submitAttendance sessionId (.error error) s).1.authData = s.authData ∧
    ((submitAttendance sessionId (.error error) s).2.filterMap Effect.submitForm).length = 1 ∧
    (submitAttendance sessionId (.error error) s).2.filterMap Effect.alertMessage =
      [match error.detail with
       | some d => if d = "" then "Failed to submit attendance" else d
       | none => "Failed to submit attendance"] := by
  have hn : s.selfie.isNone = false := by
    cases hs : s.selfie with
    | none => simp [hs] at h
    | some b => rfl
  simp only [submitAttendance, hn, submitAttendance_begin_some sessionId s h,
    submitAttendance_end, orDefault, truthy]
  refine ⟨rfl, rfl, rfl, rfl, ?_⟩
  cases error.detail with
  | none => rfl
  | some d => by_cases hd : d = "" <;> simp [Effect.alertMessage, hd]

/-- An instance of C4 (amended): the server rejects a submission as a duplicate. -/
theorem submitAttendance_failure_witness :
    capturedState.selfie.isSome = true ∧
    (submitAttendance (some "s1") (.error duplicateError) capturedState).1.completed = false ∧
    (submitAttendance (some "s1") (.error duplicateError) capturedState).2.filterMap
      Effect.alertMessage = ["Attendance already marked"] :=
  ⟨by decide,
   (submitAttendance_failure (some "s1") duplicateError capturedState (by decide)).1,
   (submitAttendance_failure (some "s1") duplicateError capturedState (by decide)).2.2.2.2⟩

/-- C5: in a state whose selfie is null, submitAttendance sends no submit-attendance
request and leaves completed, loading, isAuthenticated, authData and cameraStream
unchanged, whatever the session id and whatever a request would have returned. -/
theorem submitAttendance_without_selfie (sessionId : Option String)
    (r : Except AxiosError Unit) (s : StudentState) (h : s.selfie = none) :
    (submitAttendance sessionId r s).2.filterMap Effect.submitForm = [] ∧
    (submitAttendance sessionId r s).1.completed = s.completed ∧
    (submitAttendance sessionId r s).1.loading = s.loading ∧
    (submitAttendance sessionId r s).1.isAuthenticated = s.isAuthenticated ∧
    (submitAttendance sessionId r s).1.authData = s.authData ∧
    (submitAttendance sessionId r s).1.cameraStream = s.cameraStream := by
  simp [submitAttendance, submitAttendance_begin, h, Effect.submitForm]

/-- An instance of C5: an attempt that has not captured a selfie. -/
theorem submitAttendance_without_selfie_witness :
    identityState.selfie = none ∧
    (submitAttendance (some "s1") (.ok ()) identityState).2.filterMap Effect.submitForm = [] ∧
    (submitAttendance (some "s1") (.ok ()) identityState).1.completed = identityState.completed :=
  ⟨rfl,
   (submitAttendance_without_selfie (some "s1") (.ok ()) identityState rfl).1,
   (submitAttendance_without_selfie (some "s1") (.ok ()) identityState rfl).2.1⟩

/-- C8 as stated fails: a failed authenticate request whose response carries the detail ""
shows 'Authentication failed', not the detail. -/
theorem authenticate_empty_detail_shows_fallback :
    emptyDetailError.detail = some "" ∧
    (handleAuthentication (some "s1") (.error emptyDetailError) identityState).2.filterMap
      Effect.alertMessage = ["Authentication failed"] ∧
    (handleAuthentication (some "s1") (.error emptyDetailError) identityState).2.filterMap
      Effect.alertMessage ≠ [""] := by
  decide

/-- C8 (amended): handleAuthentication sends exactly one authenticate request, carrying the
session id and the name, enrollment_number and email of authData; afterwards isAuthenticated
is true when the request succeeded and keeps its previous value when it failed (so, starting
from false, it is true if and only if the request succeeded); on failure the one message
shown is the detail of the response when it carries a non-empty one and 'Authentication
failed' when it carries none or an empty one. -/
theorem handleAuthentication_outcome (sessionId : Option String) (r : Except AxiosError Unit)
    (s : StudentState) :
    (handleAuthentication sessionId r s).2.filterMap Effect.authBody =
      [{ session_id := sessionId, email := s.authData.email, name := s.authData.name,
         enrollment_number := s.authData.enrollment_number }] ∧
    (handleAuthentication sessionId r s).1.isAuthenticated =
      (match r with
       | .ok _ => true
       | .error _ => s.isAuthenticated) ∧
    (handleAuthentication sessionId r s).2.filterMap Effect.alertMessage =
      [match r with
       | .ok _ => "Authentication successful! Please take your selfie."
       | .error error =>
         match error.detail with
         | some d => if d = "" then "Authentication failed" else d
         | none => "Authentication failed"] := by
  cases r with
  | ok u => exact ⟨rfl, rfl, rfl⟩
  | error error =>
    refine ⟨rfl, rfl, ?_⟩
    simp only [handleAuthentication, handleAuthentication_begin, handleAuthentication_end,
      orDefault, truthy]
    cases error.detail with
    | none => rfl
    | some d => by_cases hd : d = "" <;> simp [Effect.alertMessage, hd]

/-! ### The email pattern -/

theorem parse_emailPattern :
    parsePattern emailPattern.toList =
      some (Atom.anyStar :: (emailSuffix.toList.map Atom.char ++ [Atom.endOfInput])) := by
  decide

theorem matchAtoms_chars (lit cs : List Char) :
    matchAtoms (lit.map Atom.char ++ [Atom.endOfInput, Atom.endOfInput]) cs =
      decide (cs = lit) := by
  induction lit generalizing cs with
  | nil => cases cs <;> simp [matchAtoms]
  | cons a lit ih =>
    cases cs with
    | nil =>
      show false = decide ([] = a :: lit)
      simp
    | cons c cs =>
      show (a == c && matchAtoms (lit.map Atom.char ++ [Atom.endOfInput, Atom.endOfInput]) cs)
        = decide (c :: cs = a :: lit)
      rw [ih]
      by_cases hac : a = c
      · subst hac; simp
      · have hca : ¬ c = a := fun h => hac h.symm
        simp [hac, hca]

theorem matchStar_iff (k : List Char → Bool) (cs : List Char) :
    matchStar k cs = true ↔
      ∃ p q, cs = p ++ q ∧ (∀ c ∈ p, isLineTerminator c = false) ∧ k q = true := by
  induction cs with
  | nil =>
    simp only [matchStar]
    constructor
    · intro h; exact ⟨[], [], rfl, by simp, h⟩
    · rintro ⟨p, q, hpq, _, hk⟩
      have := List.append_eq_nil.1 hpq.symm
      rw [this.2] at hk; exact hk
  | cons c cs ih =>
    simp only [matchStar, Bool.or_eq_true, Bool.and_eq_true, Bool.not_eq_true', ih]
    constructor
    · rintro (h | ⟨hc, p, q, hpq, hp, hk⟩)
      · exact ⟨[], c :: cs, rfl, by simp, h⟩
      · refine ⟨c :: p, q, by rw [hpq]; rfl, ?_, hk⟩
        intro d hd
        rcases List.mem_cons.1 hd with rfl | hd
        · exact hc
        · exact hp d hd
    · rintro ⟨p, q, hpq, hp, hk⟩
      cases p with
      | nil => left; rw [hpq]; exact hk
      | cons d p =>
        right
        rw [List.cons_append, List.cons.injEq] at hpq
        obtain ⟨rfl, rfl⟩ := hpq
        exact ⟨hp c (List.mem_cons_self _ _), p, q, rfl,
          fun e he => hp e (List.mem_cons_of_mem _ he), hk⟩

/-- The email rule accepts exactly a run of characters that are not line terminators
followed by the suffix. -/
theorem emailAccepted_iff (email : String) :
    emailAccepted email = true ↔
      ∃ p, email.toList = p ++ emailSuffix.toList ∧ ∀ c ∈ p, isLineTerminator c = false := by
  have h : emailAccepted email =
      matchStar (matchAtoms (emailSuffix.toList.map Atom.char ++
        [Atom.endOfInput, Atom.endOfInput])) email.toList := by
    simp only [emailAccepted, patternAccepts, parse_emailPattern]
    rw [List.cons_append, List.append_assoc]
    rfl
  rw [h, matchStar_iff]
  simp only [matchAtoms_chars, decide_eq_true_eq]
  constructor
  · rintro ⟨p, q, hpq, hp, rfl⟩; exact ⟨p, hpq, hp⟩
  · rintro ⟨p, hpq, hp⟩; exact ⟨p, _, hpq, hp, rfl⟩

/-- C6: for an email without a line terminator, the pattern of the email input, matched
against the whole value, accepts it if and only if it ends with '@charusat.edu.in';
'asha@charusat.edu.in' is accepted and 'asha@gmail.com' is rejected. -/
theorem emailAccepted_iff_endsWith (email : String)
    (h : ∀ c ∈ email.toList, isLineTerminator c = false) :
    (emailAccepted email = true ↔ ∃ front : String, email = front ++ "@charusat.edu.in") ∧
    emailAccepted "asha@charusat.edu.in" = true ∧
    emailAccepted "asha@gmail.com" = false := by
  refine ⟨?_, by decide, by decide⟩
  rw [emailAccepted_iff]
  constructor
  · rintro ⟨p, hp, _⟩
    refine ⟨String.mk p, ?_⟩
    apply String.ext
    rw [String.data_append]
    exact hp
  · rintro ⟨front, rfl⟩
    refine ⟨front.toList, by rw [String.toList, String.data_append]; rfl, ?_⟩
    intro c hc
    apply h
    rw [String.toList, String.data_append]
    exact List.mem_append_left _ hc

/-- An instance of C6: the address of the scenario. -/
theorem emailAccepted_iff_endsWith_witness :
    (∀ c ∈ "asha@charusat.edu.in".toList, isLineTerminator c = false) ∧
    (emailAccepted "asha@charusat.edu.in" = true ↔
      ∃ front : String, "asha@charusat.edu.in" = front ++ "@charusat.edu.in") :=
  ⟨by decide, (emailAccepted_iff_endsWith "asha@charusat.edu.in" (by decide)).1⟩

theorem toLower_not_lineTerminator (c : Char) (h : isLineTerminator c = false) :
    isLineTerminator c.toLower = false := by
  have key : ∀ n : Nat, 65 ≤ n → n ≤ 90 → isLineTerminator (Char.ofNat (n + 32)) = false := by
    intro n h1 h2
    interval_cases n <;> rfl
  show isLineTerminator (if c.toNat ≥ 65 ∧ c.toNat ≤ 90 then Char.ofNat (c.toNat + 32) else c)
    = false
  split
  next hr => exact key c.toNat hr.1 hr.2
  next => exact h

/-- C7 as stated fails: 'asha@CHARUSAT.EDU.IN' is rejected although its lower-cased form
'asha@charusat.edu.in' is accepted. -/
theorem upper_case_domain_rejected :
    emailAccepted "asha@CHARUSAT.EDU.IN" = false ∧
    toLowerCase "asha@CHARUSAT.EDU.IN" = "asha@charusat.edu.in" ∧
    emailAccepted (toLowerCase "asha@CHARUSAT.EDU.IN") = true := by
  decide

/-- C7 (amended): the email rule is case-sensitive; only one direction holds: every
accepted email is still accepted after lower-casing. -/
theorem emailAccepted_toLowerCase (email : String) (h : emailAccepted email = true) :
    emailAccepted (toLowerCase email) = true := by
  rw [emailAccepted_iff] at h ⊢
  obtain ⟨p, hp, hlt⟩ := h
  refine ⟨p.map Char.toLower, ?_, ?_⟩
  · have hs : emailSuffix.toList.map Char.toLower = emailSuffix.toList := by decide
    show (email.toList.map Char.toLower) = _
    rw [hp, List.map_append, hs]
  · intro c hc
    obtain ⟨d, hd, rfl⟩ := List.mem_map.1 hc
    exact toLower_not_lineTerminator d (hlt d hd)

/-- An instance of C7 (amended): an address with an upper-case letter before the suffix. -/
theorem emailAccepted_toLowerCase_witness :
    emailAccepted "Asha@charusat.edu.in" = true ∧
    emailAccepted (toLowerCase "Asha@charusat.edu.in") = true :=
  ⟨by decide, emailAccepted_toLowerCase "Asha@charusat.edu.in" (by decide)⟩

/-! ### Manual entry -/

theorem splitAll_of_not_mem (sep : Char) (l : List Char) (h : ∀ c ∈ l, c ≠ sep) :
    splitAll sep l = [l] := by
  induction l with
  | nil => rfl
  | cons c cs ih =>
    have hc : (c == sep) = false := by simpa using h c (List.mem_cons_self _ _)
    simp only [splitAll, hc, ih (fun d hd => h d (List.mem_cons_of_mem _ hd))]
    rfl

theorem percentDecodeFrom_plain (utf8Decode : List Nat → List Char) (l : List Char)
    (h : ∀ c ∈ l, c ≠ '%') : percentDecodeFrom utf8Decode [] l = l := by
  induction l with
  | nil => rfl
  | cons c cs ih =>
    have hc : (c == '%') = false := by simpa using h c (List.mem_cons_self _ _)
    have ihcs := ih (fun d hd => h d (List.mem_cons_of_mem _ hd))
    match cs, ihcs with
    | [], _ => rfl
    | [d], _ => rfl
    | d :: e :: rest, ihcs =>
      simp only [percentDecodeFrom, hc, ihcs, flushBytes]
      rfl

theorem formDecode_plain (utf8Decode : List Nat → List Char) (l : List Char)
    (hp : ∀ c ∈ l, c ≠ '%') (hs : ∀ c ∈ l, c ≠ '+') : formDecode utf8Decode l = l := by
  have hm : l.map (fun c => if c == '+' then ' ' else c) = l := by
    conv => rhs; rw [← List.map_id l]
    apply List.map_congr_left
    intro c hc
    have : (c == '+') = false := by simpa using hs c hc
    simp [this]
  unfold formDecode
  rw [hm]
  exact percentDecodeFrom_plain utf8Decode l hp

theorem isUnreserved_ne (c : Char) (h : isUnreserved c = true) :
    c ≠ '#' ∧ c ≠ '?' ∧ c ≠ '&' ∧ c ≠ '=' ∧ c ≠ '+' ∧ c ≠ '%' := by
  refine ⟨?_, ?_, ?_, ?_, ?_, ?_⟩ <;>
    (intro hc; subst hc; revert h; decide)

/-- Reading `session_id` back from the path that manual entry builds from an identifier
of unreserved characters. -/
theorem sessionIdOf_manual_path (utf8Decode : List Nat → List Char) (t : List Char)
    (ht : ∀ c ∈ t, isUnreserved c = true) :
    sessionIdOf utf8Decode ("/student/attendance?session_id=" ++ String.mk t) =
      some (String.mk t) := by
  have hpath : ("/student/attendance?session_id=" ++ String.mk t).toList =
      "/student/attendance".toList ++ '?' :: ("session_id".toList ++ '=' :: t) := by
    rw [String.toList, String.data_append]
    have : "/student/attendance?session_id=".data =
        "/student/attendance".toList ++ '?' :: ("session_id".toList ++ ['=']) := by decide
    rw [this]
    simp
  have hhash : ∀ c ∈ "/student/attendance".toList ++ '?' :: ("session_id".toList ++ '=' :: t),
      (c != '#') = true := by
    intro c hc
    rcases List.mem_append.1 hc with h | h
    · exact (by decide : ∀ c ∈ "/student/attendance".toList, (c != '#') = true) c h
    · rcases List.mem_cons.1 h with rfl | h
      · decide
      · rcases List.mem_append.1 h with h | h
        · exact (by decide : ∀ c ∈ "session_id".toList, (c != '#') = true) c h
        · rcases List.mem_cons.1 h with rfl | h
          · decide
          · simpa using (isUnreserved_ne c (ht c h)).1
  have hsearch : searchOf ("/student/attendance?session_id=" ++ String.mk t).toList =
      '?' :: ("session_id".toList ++ '=' :: t) := by
    rw [hpath, searchOf, List.takeWhile_eq_self_iff.2 hhash,
      List.dropWhile_append_of_pos (by decide), List.dropWhile_cons_of_neg (by decide)]
  have hamp : ∀ c ∈ "session_id".toList ++ '=' :: t, c ≠ '&' := by
    intro c hc
    rcases List.mem_append.1 hc with h | h
    · exact (by decide : ∀ c ∈ "session_id".toList, c ≠ '&') c h
    · rcases List.mem_cons.1 h with rfl | h
      · decide
      · exact (isUnreserved_ne c (ht c h)).2.2.1
  have hname : formDecode utf8Decode "session_id".toList = "session_id".toList :=
    formDecode_plain utf8Decode _ (by decide) (by decide)
  have hvalue : formDecode utf8Decode t = t :=
    formDecode_plain utf8Decode t (fun c hc => (isUnreserved_ne c (ht c hc)).2.2.2.2.2)
      (fun c hc => (isUnreserved_ne c (ht c hc)).2.2.2.2.1)
  have hne : (("session_id".toList ++ '=' :: t).isEmpty) = false := by
    cases hl : "session_id".toList ++ '=' :: t with
    | nil => simp at hl
    | cons c cs => rfl
  have hparams : searchParams utf8Decode ('?' :: ("session_id".toList ++ '=' :: t)) =
      [("session_id".toList, t)] := by
    simp only [searchParams]
    rw [if_pos (by decide), splitAll_of_not_mem _ _ hamp]
    simp only [List.filter, hne, Bool.not_false, List.map_cons, List.map_nil]
    rw [List.takeWhile_append_of_pos (by decide), List.takeWhile_cons_of_neg (by decide),
      List.dropWhile_append_of_pos (by decide), List.dropWhile_cons_of_neg (by decide)]
    simp only [List.append_nil, List.drop_succ_cons, List.drop_zero, hname, hvalue]
  unfold sessionIdOf searchParamsGet
  rw [hsearch, hparams]
  simp

/-- C9 as stated fails: `&` and `+` in the typed identifier are not escaped, so the
identifier read back from the URL is cut at `&` and has a space for `+`.  (No percent
escape occurs in these inputs, so the UTF-8 decoder plays no part.) -/
theorem manual_entry_reserved_characters :
    (handleManualEntry "a&b").bind (sessionIdOf bytewise) = some "a" ∧
    (handleManualEntry "a+b").bind (sessionIdOf bytewise) = some "a b" ∧
    trim "a&b" = "a&b" ∧ trim "a+b" = "a+b" := by
  decide

/-- C9 (amended): when the trimmed entry t is non-empty and consists of unreserved
characters only (letters, digits, '-', '.', '_', '~'), handleManualEntry navigates to
'/student/attendance?session_id=' + t and the session id read back from that URL is t. -/
theorem manual_entry_roundtrip (utf8Decode : List Nat → List Char) (manualSessionId : String)
    (h1 : trim manualSessionId ≠ "")
    (h2 : ∀ c ∈ (trim manualSessionId).toList, isUnreserved c = true) :
    handleManualEntry manualSessionId =
      some ("/student/attendance?session_id=" ++ trim manualSessionId) ∧
    sessionIdOf utf8Decode ("/student/attendance?session_id=" ++ trim manualSessionId) =
      some (trim manualSessionId) := by
  constructor
  · unfold handleManualEntry
    rw [if_pos]
    simpa [truthy] using h1
  · exact sessionIdOf_manual_path utf8Decode (trim manualSessionId).toList h2

/-- An instance of C9 (amended): an identifier typed with blanks around it. -/
theorem manual_entry_roundtrip_witness :
    trim "  3f2a-77.b_1~  " ≠ "" ∧
    (∀ c ∈ (trim "  3f2a-77.b_1~  ").toList, isUnreserved c = true) ∧
    sessionIdOf bytewise ("/student/attendance?session_id=" ++ trim "  3f2a-77.b_1~  ") =
      some "3f2a-77.b_1~" :=
  ⟨by decide, by decide,
   (manual_entry_roundtrip bytewise "  3f2a-77.b_1~  " (by decide) (by decide)).2⟩

/-! ### Creating a session -/

/-- C10 (fails on the code): with subject, faculty, class and date typed in and no time
slot, type or semester selected, the form passes the browser validation and
handleTakeAttendance sends the create-session request with the empty fields; when the
server answers, qrResult is replaced. -/
theorem take_attendance_with_empty_selects :
    selectsLeftEmpty.takeAttendanceData.hasEmptyField = true ∧
    (submitTakeForm (.ok sampleQr) selectsLeftEmpty).2.filterMap TeacherEffect.createBody =
      [selectsLeftEmpty.takeAttendanceData] ∧
    selectsLeftEmpty.qrResult = none ∧
    (submitTakeForm (.ok sampleQr) selectsLeftEmpty).1.qrResult = some sampleQr := by
  decide

/-! ### Export and reset -/

/-- C11: for every query form state, handleDownloadAttendance sends the download request
and, when it succeeds, chooses exactly one file name, 'attendance_' ++ class_name ++ '_' ++
subject ++ '_' ++ date ++ '.xlsx' with the class_name, subject and date of
getAttendanceData; when the request fails no file name is chosen. -/
theorem handleDownloadAttendance_fileName (r : Except AxiosError Unit) (s : TeacherState) :
    (handleDownloadAttendance r s).2.filterMap TeacherEffect.fileName =
      (if succeeded r then
        ["attendance_" ++ s.getAttendanceData.class_name ++ "_" ++ s.getAttendanceData.subject
          ++ "_" ++ s.getAttendanceData.date ++ ".xlsx"]
       else []) ∧
    (handleDownloadAttendance r s).2.filterMap TeacherEffect.downloadBody =
      [s.getAttendanceData] := by
  cases r with
  | error e => exact ⟨rfl, rfl⟩
  | ok u =>
    refine ⟨?_, rfl⟩
    simp only [handleDownloadAttendance, handleDownloadAttendance_begin,
      handleDownloadAttendance_end, succeeded, if_true, List.nil_append, List.cons_append,
      List.filterMap_cons, List.filterMap_nil, TeacherEffect.fileName, String.join,
      List.foldl_cons, List.foldl_nil]
    simp [String.append_assoc]

/-- C12 as stated fails: the confirmation is accepted and the reset request succeeds, with
status 200 and a null body; reading the message of the body throws before the roster is
cleared, so the roster stays displayed and the failure message is shown. -/
theorem reset_null_body_keeps_roster :
    succeeded resetNullBody = true ∧
    resultsShown.attendanceResults = some sampleResults ∧
    (handleResetAttendance true resetNullBody resultsShown).1.attendanceResults =
      some sampleResults ∧
    (handleResetAttendance true resetNullBody resultsShown).2.filterMap
      TeacherEffect.resetBody = [sampleKey] ∧
    (handleResetAttendance true resetNullBody resultsShown).2.filterMap
      TeacherEffect.alertMessage = ["Failed to reset attendance"] := by
  decide

/-- C12 (amended): handleResetAttendance sends a reset request, with the key of the query
form, exactly when the confirmation is accepted; attendanceResults becomes null when the
confirmation was accepted and the request succeeded with a body that is not null, and is
unchanged otherwise (declined, failed, or a null body), so a displayed roster is cleared
if and only if the confirmation was accepted and the request succeeded with such a body. -/
theorem handleResetAttendance_clears_iff (confirmed : Bool)
    (r : Except AxiosError (Option ResetResult)) (s : TeacherState)
    (h : s.attendanceResults ≠ none) :
    ((handleResetAttendance confirmed r s).1.attendanceResults = none ↔
      (confirmed = true ∧ ∃ data, r = .ok (some data))) ∧
    (handleResetAttendance confirmed r s).1.attendanceResults =
      (if confirmed && delivered r then none else s.attendanceResults) ∧
    (handleResetAttendance confirmed r s).2.filterMap TeacherEffect.resetBody =
      (if confirmed then [s.getAttendanceData] else []) := by
  cases confirmed <;> rcases r with e | _ | data <;>
    simp [handleResetAttendance, handleResetAttendance_begin, handleResetAttendance_end,
      delivered, TeacherEffect.resetBody, h]

/-- An instance of C12 (amended): the roster of the scenario; accepted and answered it is
cleared, declined it is kept. -/
theorem handleResetAttendance_clears_iff_witness :
    resultsShown.attendanceResults ≠ none ∧
    (handleResetAttendance true resetDone resultsShown).1.attendanceResults = none ∧
    (handleResetAttendance false resetDone resultsShown).1.attendanceResults =
      resultsShown.attendanceResults :=
  ⟨by decide,
   ((handleResetAttendance_clears_iff true resetDone resultsShown (by decide)).1).2
     ⟨rfl, _, rfl⟩,
   (handleResetAttendance_clears_iff false resetDone resultsShown (by decide)).2.1⟩

/-! ### The camera -/

/-- C13: in a state that holds a camera stream, stopCamera (the Cancel button) stops the
tracks of that stream and sets cameraStream to null, leaving selfie, isAuthenticated and
completed (and every other cell) unchanged; in a state that holds none it changes nothing
and stops nothing. -/
theorem stopCamera_releases (s : StudentState) :
    (∀ stream, s.cameraStream = some stream →
      (stopCamera s.cameraStream s).2.filterMap Effect.stoppedStream = [stream] ∧
      (stopCamera s.cameraStream s).1 = { s with cameraStream := none } ∧
      (stopCamera s.cameraStream s).1.cameraStream = none ∧
      (stopCamera s.cameraStream s).1.selfie = s.selfie ∧
      (stopCamera s.cameraStream s).1.isAuthenticated = s.isAuthenticated ∧
      (stopCamera s.cameraStream s).1.completed = s.completed) ∧
    (s.cameraStream = none → stopCamera s.cameraStream s = (s, [])) := by
  constructor
  · intro stream h
    rw [h]
    exact ⟨rfl, rfl, rfl, rfl, rfl, rfl⟩
  · intro h
    rw [h]
    rfl

/-- An instance of C13: a live stream is cancelled; an idle page is left alone. -/
theorem stopCamera_releases_witness :
    liveState.cameraStream = some 0 ∧
    (stopCamera liveState.cameraStream liveState).2.filterMap Effect.stoppedStream = [0] ∧
    (stopCamera liveState.cameraStream liveState).1.cameraStream = none ∧
    capturedState.cameraStream = none ∧
    stopCamera capturedState.cameraStream capturedState = (capturedState, []) :=
  ⟨rfl,
   ((stopCamera_releases liveState).1 0 rfl).1,
   ((stopCamera_releases liveState).1 0 rfl).2.2.1,
   rfl,
   (stopCamera_releases capturedState).2 rfl⟩

theorem step_streamGranted_frame (v : World) :
    (step v .streamGranted).ui.selfie = v.ui.selfie ∧
    (step v .streamGranted).log.filterMap Effect.submitForm =
      v.log.filterMap Effect.submitForm := by
  unfold step
  split
  · refine ⟨rfl, ?_⟩
    simp only [fire, perform_log, List.filterMap_append, startCamera_end]
    split <;> simp [Effect.submitForm]
  · exact ⟨rfl, rfl⟩

theorem step_streamDenied_frame (v : World) :
    (step v .streamDenied).ui.selfie = v.ui.selfie ∧
    (step v .streamDenied).log.filterMap Effect.submitForm =
      v.log.filterMap Effect.submitForm := by
  unfold step
  split
  · refine ⟨rfl, ?_⟩
    simp [fire, perform_log, List.filterMap_append, startCamera_end, Effect.submitForm]
  · exact ⟨rfl, rfl⟩

theorem step_clickSubmit_without_selfie (v : World) (h : v.ui.selfie = none) :
    step v .clickSubmit = v := by
  unfold step
  rw [if_neg]
  simp [enabled, h]

theorem step_clickRetake_frame (w : World) (h : enabled w .clickRetake = true) :
    (step w .clickRetake).ui.selfie = none ∧
    (step w .clickRetake).log.filterMap Effect.submitForm =
      w.log.filterMap Effect.submitForm := by
  unfold step
  rw [if_pos h]
  refine ⟨rfl, ?_⟩
  simp [fire, perform_log, List.filterMap_append, retake, startCamera_begin, Effect.submitForm]

/-- C14: Retake discards the artifact: right after Retake selfie is null and one stream
request is out; the answer to a stream request, granted or denied, never changes selfie,
so it is still null after it; and submitAttendance invoked then sends no request.  On
the page: after a click on Retake and the grant or the denial of a stream request, selfie
is null, and a click on Submit then sends no submit-attendance request. -/
theorem retake_discards_selfie (sessionId : Option String) (answer : Option MediaStream)
    (response : Except AxiosError Unit) (s : StudentState) :
    (retake s).1.selfie = none ∧
    (retake s).2 = [Effect.getUserMedia] ∧
    (startCamera_end answer (retake s).1).1.selfie = none ∧
    (submitAttendance sessionId response (startCamera_end answer (retake s).1).1).2.filterMap
      Effect.submitForm = [] ∧
    (∀ t : StudentState, (startCamera_end answer t).1.selfie = t.selfie) ∧
    (∀ w : World, enabled w .clickRetake = true →
      (run w [.clickRetake]).ui.selfie = none ∧
      (run w [.clickRetake, .streamGranted]).ui.selfie = none ∧
      (run w [.clickRetake, .streamDenied]).ui.selfie = none ∧
      (run w [.clickRetake, .streamGranted, .clickSubmit]).log.filterMap Effect.submitForm =
        w.log.filterMap Effect.submitForm ∧
      (run w [.clickRetake, .streamDenied, .clickSubmit]).log.filterMap Effect.submitForm =
        w.log.filterMap Effect.submitForm) := by
  have hk : ∀ t : StudentState, (startCamera_end answer t).1.selfie = t.selfie := by
    intro t
    cases answer <;> rfl
  have h3 : (startCamera_end answer (retake s).1).1.selfie = none := by
    rw [hk]; rfl
  refine ⟨rfl, rfl, h3, ?_, hk, ?_⟩
  · simp [submitAttendance, submitAttendance_begin, h3, Effect.submitForm]
  · intro w hw
    obtain ⟨r1, r2⟩ := step_clickRetake_frame w hw
    obtain ⟨g1, g2⟩ := step_streamGranted_frame (step w .clickRetake)
    obtain ⟨d1, d2⟩ := step_streamDenied_frame (step w .clickRetake)
    have hg : (step (step w .clickRetake) .streamGranted).ui.selfie = none := g1.trans r1
    have hd : (step (step w .clickRetake) .streamDenied).ui.selfie = none := d1.trans r1
    refine ⟨r1, hg, hd, ?_, ?_⟩
    · show (step (step (step w .clickRetake) .streamGranted) .clickSubmit).log.filterMap
        Effect.submitForm = _
      rw [step_clickSubmit_without_selfie _ hg, g2, r2]
    · show (step (step (step w .clickRetake) .streamDenied) .clickSubmit).log.filterMap
        Effect.submitForm = _
      rw [step_clickSubmit_without_selfie _ hd, d2, r2]

/-- An instance of C14: the captured selfie of the scenario is retaken on the page. -/
theorem retake_discards_selfie_witness :
    enabled (run (World.initial (some "s1")) captureDone) .clickRetake = true ∧
    (run (World.initial (some "s1")) captureDone).ui.selfie = some 7 ∧
    (run (run (World.initial (some "s1")) captureDone) [.clickRetake, .streamGranted]).ui.selfie
      = none :=
  ⟨by decide, by decide,
   ((retake_discards_selfie none none (.ok ()) capturedState).2.2.2.2.2
      (run (World.initial (some "s1")) captureDone) (by decide)).2.1⟩

/-- C15: when the stream request is denied, startCamera leaves every state cell as it
was, cameraStream included (null when it was null), so selfie, isAuthenticated and
completed are unchanged; it shows the camera message; and on the page the denial acquires
no stream and stops none. -/
theorem startCamera_denied (s : StudentState) (w : World) :
    (startCamera none s).1 = s ∧
    (startCamera none { s with cameraStream := none }).1.cameraStream = none ∧
    (startCamera none s).2.filterMap Effect.alertMessage =
      ["Could not access camera. Please allow camera permission."] ∧
    (step w .streamDenied).ui = w.ui ∧
    (step w .streamDenied).acquired = w.acquired ∧
    (step w .streamDenied).stopped = w.stopped := by
  refine ⟨rfl, rfl, rfl, ?_, ?_, ?_⟩ <;>
    (unfold step; split <;> rfl)

/-! ### Identity and keys -/

/-- C16 (fails on the code): the identity inputs stay editable while the authenticate
request is in flight.  The student of the scenario clicks Verify, replaces enrollment
number and email before the answer arrives, and completes the check-in: the one
authenticate request that succeeded carried 21CE001 and asha@charusat.edu.in, the one
submit-attendance request that was accepted carries 21CE999 and mallory@gmail.com. -/
theorem submitted_identity_differs_from_verified :
    (run (World.initial (some "s1")) editDuringAuthentication).ui.completed = true ∧
    (run (World.initial (some "s1")) editDuringAuthentication).verified.map
        AuthRequest.identity =
      [{ name := "Asha", enrollment_number := "21CE001", email := "asha@charusat.edu.in" }] ∧
    (run (World.initial (some "s1")) editDuringAuthentication).accepted.map
        SubmitForm.identity =
      [{ name := "Asha", enrollment_number := "21CE999", email := "mallory@gmail.com" }] := by
  decide

/-- C17 (fails on the code): after the query of the scenario the class in the form is
changed to CE-B while the results of CE-A stay displayed.  Reset, confirmed, posts the key
with CE-B and then clears the displayed roster of CE-A; Download posts the key with CE-B
and names the file after CE-B.  Neither sends the key of the displayed results. -/
theorem reset_after_edit_sends_form_key :
    (editQueryForm .class_name "CE-B" resultsShown).attendanceResults = some sampleResults ∧
    sampleResults.query_info = sampleKey ∧
    sampleKey.class_name = "CE-A" ∧
    (handleResetAttendance true resetDone
        (editQueryForm .class_name "CE-B" resultsShown)).2.filterMap TeacherEffect.resetBody =
      [{ sampleKey with class_name := "CE-B" }] ∧
    (handleResetAttendance true resetDone
        (editQueryForm .class_name "CE-B" resultsShown)).1.attendanceResults = none ∧
    (handleDownloadAttendance (.ok ())
        (editQueryForm .class_name "CE-B" resultsShown)).2.filterMap
          TeacherEffect.downloadBody =
      [{ sampleKey with class_name := "CE-B" }] ∧
    (handleDownloadAttendance (.ok ())
        (editQueryForm .class_name "CE-B" resultsShown)).2.filterMap TeacherEffect.fileName =
      ["attendance_CE-B_OS_2024-03-01.xlsx"] := by
  decide

/-! ### The session lookup -/

theorem foldl_emit_sessionRequests (c : StudentState) (es : List Effect) (w : World) :
    (es.foldl (World.emit c) w).sessionRequests =
      w.sessionRequests + (es.filterMap Effect.lookupId).length := by
  induction es generalizing w with
  | nil => simp
  | cons e es ih =>
    rw [List.foldl_cons, ih]
    cases e <;> (simp [World.emit, Effect.lookupId]; try omega)

theorem foldl_emit_sessionId (c : StudentState) (es : List Effect) (w : World) :
    (es.foldl (World.emit c) w).sessionId = w.sessionId := by
  induction es generalizing w with
  | nil => simp
  | cons e es ih => rw [List.foldl_cons, ih]; cases e <;> simp [World.emit]

theorem perform_sessionRequests (w : World) (r : StudentState × List Effect) :
    (World.perform w r).sessionRequests =
      w.sessionRequests + (r.2.filterMap Effect.lookupId).length :=
  foldl_emit_sessionRequests w.ui r.2 w

theorem perform_sessionId (w : World) (r : StudentState × List Effect) :
    (World.perform w r).sessionId = w.sessionId :=
  foldl_emit_sessionId w.ui r.2 w

theorem foldl_emit_resolved (c : StudentState) (es : List Effect) (w : World) :
    (es.foldl (World.emit c) w).resolved = w.resolved := by
  induction es generalizing w with
  | nil => simp
  | cons e es ih => rw [List.foldl_cons, ih]; cases e <;> simp [World.emit]

theorem perform_resolved (w : World) (r : StudentState × List Effect) :
    (World.perform w r).resolved = w.resolved :=
  foldl_emit_resolved w.ui r.2 w

/-- A handler result that sends no lookup, authenticate or submit request and keeps
`sessionInfo` and `isAuthenticated`, run in a world that agrees with `w` on what the
lookup discipline reads, preserves the discipline. -/
theorem sessionInv_frame (w v : World) (r : StudentState × List Effect) (h : SessionInv w)
    (hq : v.sessionRequests = w.sessionRequests) (ha : v.authRequests = w.authRequests)
    (hlog : v.log = w.log) (hid : v.sessionId = w.sessionId)
    (hres : v.resolved = w.resolved)
    (hs : r.1.sessionInfo = w.ui.sessionInfo)
    (hi : r.1.isAuthenticated = w.ui.isAuthenticated)
    (h1 : r.2.filterMap Effect.lookupId = []) (h2 : r.2.filterMap Effect.authBody = [])
    (h3 : r.2.filterMap Effect.submitForm = []) : SessionInv (World.perform v r) := by
  obtain ⟨k1, k2, k3, k4, k5, k6⟩ := h
  constructor <;>
    simp only [perform_ui, perform_sessionRequests, perform_authRequests, perform_log,
      perform_sessionId, perform_resolved, List.filterMap_append, h1, h2, h3, hq, ha, hlog,
      hid, hres, hs, hi, List.append_nil, List.length_nil, Nat.add_zero] <;> assumption

/-- The discipline in a world whose session is resolved and stays as it is. -/
theorem sessionInv_resolved (w v : World) (h : SessionInv w)
    (hw : w.ui.sessionInfo ≠ none) (hv : v.ui.sessionInfo = w.ui.sessionInfo)
    (hq : v.sessionRequests = w.sessionRequests)
    (hlook : v.log.filterMap Effect.lookupId = w.log.filterMap Effect.lookupId)
    (hid : v.sessionId = w.sessionId) (hres : v.resolved = w.resolved) : SessionInv v := by
  obtain ⟨k1, k2, k3, k4, k5, k6⟩ := h
  constructor
  · rw [hq]; exact k1
  · intro _; rw [hq]; exact k2 hw
  · intro hn; rw [hv] at hn; exact absurd hn hw
  · rw [hlook, hid]; exact k4
  · rw [hv, hres]; exact k5
  · rw [hres, hq, hlook]; exact k6

theorem sessionInv_initial (sessionId : Option String) :
    SessionInv (World.initial sessionId) := by
  unfold World.initial
  cases sessionId with
  | none =>
    constructor <;>
      simp [World.perform, mountEffect, StudentState.initial]
  | some id =>
    by_cases ht : truthy id = true
    · constructor <;>
        simp [World.perform, mountEffect, fetchSessionInfo_begin, ht, World.emit,
          StudentState.initial, Effect.lookupId, Effect.authBody, Effect.submitForm]
    · constructor <;>
        simp [World.perform, mountEffect, ht, StudentState.initial]

/-- The answer to the one lookup in flight preserves the discipline. -/
theorem sessionInv_sessionResponse (w : World) (r : Except AxiosError (Option SessionData))
    (h : SessionInv w) (hen : 0 < w.sessionRequests) :
    SessionInv (fire w (.sessionResponse r)) := by
  obtain ⟨k1, k2, k3, k4, k5, k6⟩ := h
  have hnone : w.ui.sessionInfo = none := by
    by_contra hne
    have := k2 hne
    omega
  obtain ⟨l1, l2, l3, l4⟩ := k3 hnone
  have hz : w.sessionRequests - 1 = 0 := by omega
  have e1 : [Effect.consoleError "Error fetching session info:",
      Effect.alert "Invalid or expired session"].filterMap Effect.lookupId = [] := rfl
  have e2 : [Effect.consoleError "Error fetching session info:",
      Effect.alert "Invalid or expired session"].filterMap Effect.authBody = [] := rfl
  have e3 : [Effect.consoleError "Error fetching session info:",
      Effect.alert "Invalid or expired session"].filterMap Effect.submitForm = [] := rfl
  have hkept : SessionInv
      (World.perform { w with sessionRequests := w.sessionRequests - 1 }
        (w.ui, [.consoleError "Error fetching session info:",
                .alert "Invalid or expired session"])) := by
    constructor <;>
      simp only [perform_ui, perform_sessionRequests, perform_authRequests, perform_log,
        perform_sessionId, perform_resolved, List.filterMap_append, hz, l2, l3, l4, e1, e2, e3,
        List.append_nil, List.length_nil, Nat.add_zero]
    · omega
    · intro _; trivial
    · intro _; exact ⟨l1, trivial, trivial, trivial⟩
    · exact k4
    · exact k5
    · omega
  rcases r with e | _ | data
  · exact hkept
  · exact hkept
  · constructor <;>
      simp only [fire, fetchSessionInfo_end, perform_ui, perform_sessionRequests,
        perform_authRequests, perform_log, perform_sessionId, perform_resolved,
        List.filterMap_append, List.filterMap_nil, hz, l2, l3, l4, List.append_nil,
        List.length_nil, Nat.add_zero]
    · omega
    · intro _; trivial
    · intro _; exact ⟨l1, trivial, trivial, trivial⟩
    · exact k4
    · intro info hi
      rw [hi]
      simp
    · have hlen : (data.session_info.toList).length ≤ 1 := by
        cases data.session_info <;> simp
      rw [List.length_append]
      omega

theorem sessionInv_step (w : World) (e : Event) (h : SessionInv w) : SessionInv (step w e) := by
  unfold step
  split
  next hen =>
    cases e with
    | sessionResponse r =>
      simp only [enabled, decide_eq_true_eq] at hen
      exact sessionInv_sessionResponse w r h hen
    | editName v => exact sessionInv_frame w w _ h rfl rfl rfl rfl rfl rfl rfl rfl rfl rfl
    | editEnrollment v =>
      exact sessionInv_frame w w _ h rfl rfl rfl rfl rfl rfl rfl rfl rfl rfl
    | editEmail v => exact sessionInv_frame w w _ h rfl rfl rfl rfl rfl rfl rfl rfl rfl rfl
    | submitIdentityForm =>
      simp only [enabled, Bool.and_eq_true, beq_iff_eq] at hen
      have hw := (screen_identityForm _ hen.1.1).1
      apply sessionInv_resolved w _ h hw
      · rfl
      · rw [fire, perform_sessionRequests]; rfl
      · rw [fire, perform_log, List.filterMap_append]
        simp [handleAuthentication_begin, Effect.lookupId]
      · rw [fire, perform_sessionId]
      · rw [fire, perform_resolved]
    | authenticateResponse i r =>
      simp only [enabled, decide_eq_true_eq] at hen
      have hw : w.ui.sessionInfo ≠ none := by
        intro hn
        have := (h.locked hn).2.1
        rw [this] at hen
        simp at hen
      apply sessionInv_resolved w _ h hw
      · cases r <;> rfl
      · simp only [fire, perform_sessionRequests]; cases r <;> rfl
      · simp only [fire, perform_log, List.filterMap_append]
        cases r <;> simp [handleAuthentication_end, Effect.lookupId]
      · simp only [fire, perform_sessionId]
      · simp only [fire, perform_resolved]
    | clickStartCamera =>
      exact sessionInv_frame w w _ h rfl rfl rfl rfl rfl rfl rfl rfl rfl rfl
    | streamGranted =>
      refine sessionInv_frame w _ _ h rfl rfl rfl rfl rfl rfl rfl ?_ ?_ ?_ <;>
        (simp only [startCamera_end]; split <;> rfl)
    | streamDenied =>
      exact sessionInv_frame w _ _ h rfl rfl rfl rfl rfl rfl rfl rfl rfl rfl
    | clickCapture =>
      refine sessionInv_frame w w _ h rfl rfl rfl rfl rfl ?_ ?_ ?_ ?_ ?_ <;>
        (simp only [captureSelfie]; split <;> rfl)
    | blobReady i blob =>
      refine sessionInv_frame w _ _ h rfl rfl rfl rfl rfl ?_ ?_ ?_ ?_ ?_ <;>
        (simp only [captureSelfie_callback, stopCamera]; split <;> rfl)
    | clickCancel =>
      refine sessionInv_frame w w _ h rfl rfl rfl rfl rfl ?_ ?_ ?_ ?_ ?_ <;>
        (simp only [stopCamera]; split <;> rfl)
    | clickSubmit =>
      simp only [enabled, Bool.and_eq_true, beq_iff_eq] at hen
      have hw := (screen_selfieStep _ hen.1.1).1
      rw [fire, submitAttendance_begin_some _ _ hen.1.2]
      apply sessionInv_resolved w _ h hw
      · rfl
      · rw [perform_sessionRequests]; rfl
      · rw [perform_log, List.filterMap_append]
        simp [Effect.lookupId]
      · rw [perform_sessionId]
      · rw [perform_resolved]
    | submitResponse i r =>
      refine sessionInv_frame w _ _ h rfl rfl rfl rfl rfl ?_ ?_ ?_ ?_ ?_ <;> (cases r <;> rfl)
    | clickRetake => exact sessionInv_frame w w _ h rfl rfl rfl rfl rfl rfl rfl rfl rfl rfl
  next => exact h

theorem sessionInv_run (w : World) (es : List Event) (h : SessionInv w) :
    SessionInv (run w es) := by
  induction es generalizing w with
  | nil => exact h
  | cons e es ih => exact ih (step w e) (sessionInv_step w e h)

theorem sessionInv_reachable (w : World) (h : Reachable w) : SessionInv w := by
  obtain ⟨sessionId, es, rfl⟩ := h
  exact sessionInv_run _ es (sessionInv_initial sessionId)

/-- C18: in every reachable state of the student page, isAuthenticated = true implies
that sessionInfo is non-null; a non-null sessionInfo is the session_info that a successful
session lookup delivered; an authenticate or submit-attendance request has been sent only
if sessionInfo is non-null and a lookup has succeeded; every success answers a lookup that
was sent, a success means the URL has a session_id and a lookup for it was sent, every
lookup sent is for the session_id of the URL, and when the URL has none no lookup is
sent. -/
theorem requests_need_resolved_session (w : World) (hr : Reachable w) :
    (w.ui.isAuthenticated = true → w.ui.sessionInfo ≠ none) ∧
    (∀ info, w.ui.sessionInfo = some info → info ∈ w.resolved) ∧
    (w.log.filterMap Effect.authBody ≠ [] → w.ui.sessionInfo ≠ none ∧ w.resolved ≠ []) ∧
    (w.log.filterMap Effect.submitForm ≠ [] → w.ui.sessionInfo ≠ none ∧ w.resolved ≠ []) ∧
    w.resolved.length ≤ (w.log.filterMap Effect.lookupId).length ∧
    (w.resolved ≠ [] →
      ∃ id, w.sessionId = some id ∧ id ∈ w.log.filterMap Effect.lookupId) ∧
    (∀ id ∈ w.log.filterMap Effect.lookupId, w.sessionId = some id) ∧
    (w.sessionId = none → w.log.filterMap Effect.lookupId = []) := by
  have h := sessionInv_reachable w hr
  have hlen : w.resolved.length ≤ (w.log.filterMap Effect.lookupId).length := by
    have := h.answered
    omega
  have hurl : w.resolved ≠ [] →
      ∃ id, w.sessionId = some id ∧ id ∈ w.log.filterMap Effect.lookupId := by
    intro hne
    cases hl : w.log.filterMap Effect.lookupId with
    | nil =>
      rw [hl, List.length_nil, Nat.le_zero, List.length_eq_zero] at hlen
      exact absurd hlen hne
    | cons id ids =>
      have hmem : id ∈ w.log.filterMap Effect.lookupId := by
        rw [hl]; exact List.mem_cons_self _ _
      exact ⟨id, h.looked id hmem, by rw [← hl]; exact hmem⟩
  have hset : w.ui.sessionInfo ≠ none → w.resolved ≠ [] := by
    intro hne hnil
    cases hs : w.ui.sessionInfo with
    | none => exact hne hs
    | some info =>
      have := h.known info hs
      rw [hnil] at this
      cases this
  have hauth : w.log.filterMap Effect.authBody ≠ [] → w.ui.sessionInfo ≠ none :=
    fun ha hn => ha (h.locked hn).2.2.1
  have hsub : w.log.filterMap Effect.submitForm ≠ [] → w.ui.sessionInfo ≠ none :=
    fun hs hn => hs (h.locked hn).2.2.2
  refine ⟨?_, h.known, fun ha => ⟨hauth ha, hset (hauth ha)⟩,
    fun hs => ⟨hsub hs, hset (hsub hs)⟩, hlen, hurl, h.looked, ?_⟩
  · intro hi hn
    rw [(h.locked hn).1] at hi
    cases hi
  · intro hnone
    cases hl : w.log.filterMap Effect.lookupId with
    | nil => rfl
    | cons id ids =>
      have := h.looked id (by rw [hl]; exact List.mem_cons_self _ _)
      rw [hnone] at this
      cases this

/-- An instance of C18: the state after a complete check-in, a page whose lookup failed,
and a page opened without a session_id. -/
theorem requests_need_resolved_session_witness :
    Reachable (run (World.initial (some "s1")) checkIn) ∧
    (run (World.initial (some "s1")) checkIn).ui.isAuthenticated = true ∧
    (run (World.initial (some "s1")) checkIn).ui.sessionInfo ≠ none ∧
    (run (World.initial (some "s1")) checkIn).log.filterMap Effect.submitForm ≠ [] ∧
    (run (World.initial (some "s1")) checkIn).resolved ≠ [] ∧
    Reachable (run (World.initial (some "s1")) lookupFails) ∧
    (run (World.initial (some "s1")) lookupFails).resolved = [] ∧
    (run (World.initial (some "s1")) lookupFails).log.filterMap Effect.authBody = [] ∧
    Reachable (run (World.initial none) toSelfieStep) ∧
    (run (World.initial none) toSelfieStep).log.filterMap Effect.lookupId = [] :=
  ⟨⟨_, _, rfl⟩, by decide,
   (requests_need_resolved_session _ ⟨_, _, rfl⟩).1 (by decide),
   by decide,
   ((requests_need_resolved_session _ ⟨_, _, rfl⟩).2.2.2.1 (by decide)).2,
   ⟨_, _, rfl⟩, by decide,
   by
    by_contra hsent
    exact ((requests_need_resolved_session
      (run (World.initial (some "s1")) lookupFails) ⟨_, _, rfl⟩).2.2.1 hsent).2 (by decide),
   ⟨_, _, rfl⟩,
   (requests_need_resolved_session _ ⟨_, _, rfl⟩).2.2.2.2.2.2.2 (by decide)⟩

end Attendance
